import Mathlib

/-!
# Fyre / de Jong Explorer: the animation editor (`src/explorer-animation.c`)

A shallow embedding of the explorer's animation editor.  The editor's callbacks
are translated from `explorer-animation.c`.  `gdouble` values are embedded as
exact rationals, `glong` fields of `GTimeVal` as integers.

Three layers appear below.

* The keyframe timeline and its seek engine (`animation_get_length`,
  `animation_keyframe_get_time`, `animation_iter_seek`,
  `animation_iter_load_dejong`, ...) live in `animation.c` and `spline.c`,
  which are not part of the sources at hand; they are modelled from the
  specification, each under a doc comment that says so.
* The toolkit calls the callbacks go through (`gtk_range_set_value`,
  `gtk_toggle_button_set_active`, `gtk_tree_view_set_cursor`,
  `gtk_spin_button_set_value`) are embedded with the GTK+ 2 behaviour the
  callbacks rely on: a setter clamps, stores, and emits its signal only when
  the stored value changes.
* The callbacks themselves, and the signal wiring of `explorer_init_animation`.
-/

namespace Fyre

/-! ## Easing curves (spec section 3 and 4.1) -/

/-- The curve kind tag of an easing curve. -/
inductive SplineKind where
  | free_form
  | linear_template
  | smooth_template
deriving DecidableEq

/-- Modelled from the spec: the `Spline` type of `spline.h`, which is missing.
An ordered sequence of control points `(x, y)` and a curve kind tag. -/
structure Spline where
  kind : SplineKind
  points : List (ℚ × ℚ)
deriving DecidableEq

/-- Modelled from the spec: `spline_template_linear`, declared in the missing
`spline.h`; its evaluation is the identity function. -/
def spline_template_linear : Spline :=
  { kind := SplineKind.linear_template, points := [(0, 0), (1, 1)] }

/-- Modelled from the spec: `spline_template_smooth`, declared in the missing
`spline.h`; the default two point curve of a new keyframe. -/
def spline_template_smooth : Spline :=
  { kind := SplineKind.smooth_template, points := [(0, 0), (1, 1)] }

/-- The `CLAMP(x, low, high)` macro of GLib. -/
def CLAMP (x low high : ℚ) : ℚ :=
  if x > high then high else if x < low then low else x

/-- Piecewise linear interpolation through control points sorted by `x`. -/
def piecewise_linear : List (ℚ × ℚ) → ℚ → ℚ
  | [], _ => 0
  | [p], _ => p.2
  | p :: q :: rest, x =>
    if x ≤ p.1 then p.2
    else if x < q.1 then p.2 + (q.2 - p.2) * ((x - p.1) / (q.1 - p.1))
    else piecewise_linear (q :: rest) x

/-- Modelled from the spec: `EasingCurve.evaluate`, whose code (`spline.c`) is
missing.  The input is clamped to `[0, 1]`; the linear template is the
identity, the smooth template is the cubic Hermite ease with zero end slopes,
a free-form curve interpolates piecewise linearly through its points. -/
def spline_evaluate (sp : Spline) (x : ℚ) : ℚ :=
  let u := CLAMP x 0 1
  match sp.kind with
  | SplineKind.linear_template => u
  | SplineKind.smooth_template => 3 * u ^ 2 - 2 * u ^ 3
  | SplineKind.free_form => piecewise_linear sp.points u

/-! ## Parameter vectors, keyframes and the timeline (spec section 3) -/

/-- Modelled from the spec: the renderer's parameter snapshot (`DeJong`,
declared outside the sources at hand), a fixed-size numeric tuple; the four
coefficients of the Peter de Jong map. -/
structure ParameterVector where
  a : ℚ
  b : ℚ
  c : ℚ
  d : ℚ
deriving DecidableEq

/-- Component-wise linear blend `p * (1 - e) + q * e`. -/
def ParameterVector.blend (p q : ParameterVector) (e : ℚ) : ParameterVector :=
  { a := p.a * (1 - e) + q.a * e
    b := p.b * (1 - e) + q.b * e
    c := p.c * (1 - e) + q.c * e
    d := p.d * (1 - e) + q.d * e }

/-- One row of the animation's list store: the parameter snapshot, and the
`ANIMATION_MODEL_SPLINE` and `ANIMATION_MODEL_DURATION` columns governing the
transition to the next row.  The thumbnail column carries no behaviour and is
left out. -/
structure Keyframe where
  parameters : ParameterVector
  spline : Spline
  duration : ℚ
deriving DecidableEq

/-- The rows of `self->animation->model`, in playback order. -/
abbrev Timeline := List Keyframe

/-- Modelled from the spec: `animation_get_length` (`animation.c` is missing).
The sum of `durationToNext` over all keyframes except the last. -/
def animation_get_length (t : Timeline) : ℚ :=
  (t.dropLast.map Keyframe.duration).sum

/-- Modelled from the spec: `animation_keyframe_get_time` (`animation.c` is
missing).  The prefix sum of `durationToNext` over keyframes `[0, index)`. -/
def animation_keyframe_get_time (t : Timeline) (index : Nat) : ℚ :=
  ((t.take index).map Keyframe.duration).sum

/-- The transient seek cursor (`AnimationIter`): the flag `valid` and the row
`keyframe` are the fields the editor reads; `localProgress` is the fraction of
the active segment already played. -/
structure AnimationIter where
  valid : Bool
  keyframe : Nat
  localProgress : ℚ
deriving DecidableEq

/-- The invalid cursor. -/
def AnimationIter.invalid : AnimationIter :=
  { valid := false, keyframe := 0, localProgress := 0 }

/-- Step 2 of the seek: the first segment `i` with
`keyframeTimeAt(i) ≤ t < keyframeTimeAt(i+1)`, by a linear scan. -/
def find_segment (t : Timeline) (absolute_time : ℚ) : Option Nat :=
  (List.range (t.length - 1)).find? (fun i =>
    decide (animation_keyframe_get_time t i ≤ absolute_time) &&
    decide (absolute_time < animation_keyframe_get_time t (i + 1)))

/-- Modelled from the spec: `animation_iter_seek` (`animation.c` is missing),
steps 1 to 4 of spec section 4.3. -/
def animation_iter_seek (t : Timeline) (absolute_time : ℚ) : AnimationIter :=
  if t.length < 2 ∨ absolute_time < 0 ∨ absolute_time ≥ animation_get_length t then
    AnimationIter.invalid
  else
    match find_segment t absolute_time with
    | none => AnimationIter.invalid
    | some i =>
      let d := (t.map Keyframe.duration).getD i 0
      { valid := true
        keyframe := i
        localProgress :=
          if d = 0 then 1 else (absolute_time - animation_keyframe_get_time t i) / d }

/-- Faults of the embedding: a call whose precondition fails, or a signal
cascade deeper than the fuel it was given. -/
inductive Fault where
  | out_of_fuel
  | invalid_iterator
  | no_current_keyframe
deriving DecidableEq

/-- Modelled from the spec: `animation_iter_load_dejong` (`animation.c` is
missing), the `resolve` of spec section 4.3.  It requires a valid cursor. -/
def animation_iter_load_dejong (t : Timeline) (iter : AnimationIter) :
    Except Fault ParameterVector :=
  if iter.valid then
    match t[iter.keyframe]?, t[iter.keyframe + 1]? with
    | some k, some k' =>
      Except.ok (k.parameters.blend k'.parameters (spline_evaluate k.spline iter.localProgress))
    | _, _ => Except.error Fault.invalid_iterator
  else Except.error Fault.invalid_iterator

/-- Modelled from the spec: `animation_keyframe_append` (`animation.c` is
missing).  A new keyframe holding a copy of the live parameters, the smooth
template curve and the default duration of one time unit, added at the end. -/
def animation_keyframe_append (t : Timeline) (dejong : ParameterVector) : Timeline :=
  t ++ [{ parameters := dejong, spline := spline_template_smooth, duration := 1 }]

/-- A `gtk_list_store_set` on row `k`: the row is rewritten in place; an
iterator that names no row leaves the store alone. -/
def list_store_update (t : Timeline) (k : Nat) (f : Keyframe → Keyframe) : Timeline :=
  match t[k]? with
  | some row => t.set k (f row)
  | none => t

/-- Modelled from the spec: `animation_keyframe_store_dejong` (`animation.c`
is missing), the `replaceAt` of spec section 4.2: the snapshot is overwritten,
curve and duration stay. -/
def animation_keyframe_store_dejong (t : Timeline) (k : Nat) (dejong : ParameterVector) :
    Timeline :=
  list_store_update t k (fun row => { row with parameters := dejong })

/-- Modelled from the spec: `animation_clear` (`animation.c` is missing). -/
def animation_clear (_t : Timeline) : Timeline := []

/-- Modelled from the spec: `animation_load_file` (`animation.c` is missing).
The decoded file is an input: `none` stands for a corrupt file, which leaves
the open timeline untouched. -/
def animation_load_file (t : Timeline) (file : Option Timeline) : Timeline :=
  match file with
  | some loaded => loaded
  | none => t

/-! ## Toolkit state -/

/-- The `GTimeVal` of GLib. -/
structure GTimeVal where
  tv_sec : Int
  tv_usec : Int
deriving DecidableEq

/-- The fields of a `GtkAdjustment`, in the order of `gtk_adjustment_new`. -/
structure GtkAdjustment where
  value : ℚ
  lower : ℚ
  upper : ℚ
  step_increment : ℚ
  page_increment : ℚ
  page_size : ℚ
deriving DecidableEq

/-- The constructor `gtk_adjustment_new`; it stores its arguments as given. -/
def gtk_adjustment_new (value lower upper step_increment page_increment page_size : ℚ) :
    GtkAdjustment :=
  { value := value, lower := lower, upper := upper, step_increment := step_increment,
    page_increment := page_increment, page_size := page_size }

/-- The `anim_scale` widget: its adjustment and its sensitivity. -/
structure GtkRange where
  adjustment : GtkAdjustment
  sensitive : Bool
deriving DecidableEq

/-- The `anim_play_button` widget. -/
structure GtkToggleButton where
  active : Bool
  sensitive : Bool
deriving DecidableEq

/-- The `keyframe_duration` spin button; its bounds come from the interface
description, which is not part of the sources at hand, so they are state. -/
structure GtkSpinButton where
  adjustment : GtkAdjustment
deriving DecidableEq

/-- The part of `Explorer` the animation editor reads and writes: the fields
of the object, then the widgets it reaches by name through `self->xml`.
`render_passes` counts the forced `explorer_run_iterations` and
`explorer_update_gui` rounds, whose code lies outside the sources at hand. -/
structure Explorer where
  animation : Timeline
  dejong : ParameterVector
  seeking_animation : Bool
  selecting_keyframe : Bool
  playing_animation : Bool
  allow_transition_changes : Bool
  last_anim_frame_time : GTimeVal
  anim_curve : Spline
  anim_scale : GtkRange
  anim_play_button : GtkToggleButton
  loop_animation : Bool
  keyframe_view : Option Nat
  keyframe_duration : GtkSpinButton
  keyframe_delete_button : Bool
  keyframe_replace_button : Bool
  anim_transition_box : Bool
  render_passes : Nat
deriving DecidableEq

/-- The callbacks that `explorer_init_animation` connects and that the editor
itself can set off by calling a toolkit setter. -/
inductive Signal where
  | anim_scale_changed
  | anim_play_toggled
  | keyframe_view_cursor_changed
  | keyframe_duration_change
  | anim_curve_changed
deriving DecidableEq

/-- Delivery of a signal to its connected callback. -/
abbrev Emit := Signal → Explorer → Except Fault Explorer

/-! ## Toolkit setters -/

/-- The setter `gtk_range_set_value` on `anim_scale`: the value is clamped to
`[lower, upper - page_size]`, then `gtk_adjustment_set_value` clamps to
`[lower, upper]`, stores, and emits `value_changed` only when the stored value
differs from the old one. -/
def gtk_range_set_value (emit : Emit) (self : Explorer) (value : ℚ) : Except Fault Explorer :=
  let adj := self.anim_scale.adjustment
  let v := CLAMP (CLAMP value adj.lower (adj.upper - adj.page_size)) adj.lower adj.upper
  if v ≠ adj.value then
    emit Signal.anim_scale_changed
      { self with anim_scale := { self.anim_scale with adjustment := { adj with value := v } } }
  else Except.ok self

/-- The setter `gtk_toggle_button_set_active` on `anim_play_button`: a button
already in the requested state is left alone, otherwise it flips and emits
`toggled`. -/
def gtk_toggle_button_set_active (emit : Emit) (self : Explorer) (is_active : Bool) :
    Except Fault Explorer :=
  if self.anim_play_button.active ≠ is_active then
    emit Signal.anim_play_toggled
      { self with anim_play_button := { self.anim_play_button with active := is_active } }
  else Except.ok self

/-- The setter `gtk_tree_view_set_cursor` on `keyframe_view`: the cursor
moves to the row and `cursor_changed` is emitted. -/
def gtk_tree_view_set_cursor (emit : Emit) (self : Explorer) (path : Nat) :
    Except Fault Explorer :=
  emit Signal.keyframe_view_cursor_changed { self with keyframe_view := some path }

/-- The constant `EPSILON` of `gtkspinbutton.c`. -/
def EPSILON : ℚ := 1 / 10000000000

/-- The setter `gtk_spin_button_set_value` on `keyframe_duration`: a value
further than `EPSILON` from the current one goes through
`gtk_adjustment_set_value`, which clamps, stores and emits `value_changed`
when the stored value changed. -/
def gtk_spin_button_set_value (emit : Emit) (self : Explorer) (value : ℚ) :
    Except Fault Explorer :=
  let adj := self.keyframe_duration.adjustment
  if |value - adj.value| > EPSILON then
    let v := CLAMP value adj.lower adj.upper
    if v ≠ adj.value then
      emit Signal.keyframe_duration_change
        { self with keyframe_duration := { adjustment := { adj with value := v } } }
    else Except.ok self
  else Except.ok self

/-- Modelled from the spec: `curve_editor_set_spline` (`curve-editor.c` is
missing).  The editor's control points are replaced wholesale by a copy, and
the widget reports `changed`. -/
def curve_editor_set_spline (emit : Emit) (self : Explorer) (spline : Spline) :
    Except Fault Explorer :=
  emit Signal.anim_curve_changed { self with anim_curve := spline }

/-- Modelled from the spec: `curve_editor_get_spline` (`curve-editor.c` is
missing), a copy of the editor's current curve. -/
def curve_editor_get_spline (self : Explorer) : Spline := self.anim_curve

/-! ## The callbacks of `explorer-animation.c` -/

/-- The helper `explorer_get_current_keyframe`: the row under the keyframe
view's cursor.  Without a cursor the C code goes on with an iterator that was
never filled in; the embedding reports that as a fault. -/
def explorer_get_current_keyframe (self : Explorer) : Except Fault Nat :=
  match self.keyframe_view with
  | some k => if k < self.animation.length then Except.ok k
              else Except.error Fault.no_current_keyframe
  | none => Except.error Fault.no_current_keyframe

/-- The helper `explorer_update_animation_length`: recalculate the length of
the animation and give `anim_scale` a fresh adjustment for it. -/
def explorer_update_animation_length (self : Explorer) : Explorer :=
  let length := animation_get_length self.animation
  let enable : Bool := decide (length > 1 / 10000)
  let length := if !enable then 1 else length
  { self with
    anim_scale :=
      { adjustment :=
          gtk_adjustment_new self.anim_scale.adjustment.value 0 length (1 / 100) 1 0
        sensitive := enable }
    anim_play_button := { self.anim_play_button with sensitive := enable } }

/-- The callback `on_keyframe_add`. -/
def on_keyframe_add (self : Explorer) : Explorer :=
  explorer_update_animation_length
    { self with animation := animation_keyframe_append self.animation self.dejong }

/-- The callback `on_keyframe_replace`. -/
def on_keyframe_replace (self : Explorer) : Except Fault Explorer := do
  let iter ← explorer_get_current_keyframe self
  pure { self with animation := animation_keyframe_store_dejong self.animation iter self.dejong }

/-- The callback `on_keyframe_delete`: the three widgets become insensitive,
the row under the cursor is removed (which leaves the view without a cursor),
and the scale is brought up to date. -/
def on_keyframe_delete (self : Explorer) : Except Fault Explorer := do
  let iter ← explorer_get_current_keyframe self
  let self := { self with keyframe_delete_button := false, keyframe_replace_button := false,
                          anim_transition_box := false }
  let self := { self with animation := self.animation.eraseIdx iter, keyframe_view := none }
  pure (explorer_update_animation_length self)

/-- The callback `on_keyframe_duration_change`; the widget's value is that of
the `keyframe_duration` spin button. -/
def on_keyframe_duration_change (self : Explorer) : Except Fault Explorer :=
  if !self.allow_transition_changes then Except.ok self
  else do
    let iter ← explorer_get_current_keyframe self
    let value := self.keyframe_duration.adjustment.value
    let model := list_store_update self.animation iter (fun row => { row with duration := value })
    pure (explorer_update_animation_length { self with animation := model })

/-- The callback `on_anim_curve_changed`. -/
def on_anim_curve_changed (self : Explorer) : Except Fault Explorer :=
  if !self.allow_transition_changes then Except.ok self
  else do
    let iter ← explorer_get_current_keyframe self
    let spline := curve_editor_get_spline self
    let model := list_store_update self.animation iter (fun row => { row with spline := spline })
    pure { self with animation := model }

/-- The callback `on_keyframe_view_cursor_changed`. -/
def on_keyframe_view_cursor_changed (emit : Emit) (self : Explorer) : Except Fault Explorer := do
  let iter ← explorer_get_current_keyframe self
  let self := { self with keyframe_delete_button := true, keyframe_replace_button := true,
                          anim_transition_box := true }
  let self ←
    if !self.seeking_animation then do
      let self := { self with selecting_keyframe := true }
      let self ← gtk_range_set_value emit self (animation_keyframe_get_time self.animation iter)
      let self ← gtk_toggle_button_set_active emit self false
      pure { self with selecting_keyframe := false }
    else pure self
  let self := { self with allow_transition_changes := false }
  match self.animation[iter]? with
  | none => Except.error Fault.no_current_keyframe
  | some row => do
    let self ← gtk_spin_button_set_value emit self row.duration
    let self ← curve_editor_set_spline emit self row.spline
    pure { self with allow_transition_changes := true }

/-- The callback `on_anim_set_linear`. -/
def on_anim_set_linear (emit : Emit) (self : Explorer) : Except Fault Explorer :=
  curve_editor_set_spline emit self spline_template_linear

/-- The callback `on_anim_set_smooth`. -/
def on_anim_set_smooth (emit : Emit) (self : Explorer) : Except Fault Explorer :=
  curve_editor_set_spline emit self spline_template_smooth

/-- The elapsed time `diff` of `explorer_update_animation`, in seconds. -/
def frame_time_diff (now last : GTimeVal) : ℚ :=
  ((now.tv_usec - last.tv_usec : Int) : ℚ) / 1000000 + ((now.tv_sec - last.tv_sec : Int) : ℚ)

/-- The playback tick `explorer_update_animation`; `now` is what
`g_get_current_time` reports. -/
def explorer_update_animation (emit : Emit) (now : GTimeVal) (self : Explorer) :
    Except Fault Explorer :=
  if !self.playing_animation then Except.ok self
  else
    let diff := frame_time_diff now self.last_anim_frame_time
    let self := { self with last_anim_frame_time := now }
    let adj := self.anim_scale.adjustment
    let new_value := adj.value + diff
    if new_value < adj.upper then
      gtk_range_set_value emit self new_value
    else if self.loop_animation then
      gtk_range_set_value emit self adj.lower
    else do
      let self ← gtk_range_set_value emit self adj.upper
      gtk_toggle_button_set_active emit self false

/-- The callback `on_anim_play_toggled`; `now` is what `g_get_current_time`
reports. -/
def on_anim_play_toggled (emit : Emit) (now : GTimeVal) (self : Explorer) :
    Except Fault Explorer :=
  if self.anim_play_button.active then do
    let self ←
      if self.anim_scale.adjustment.value ≥ self.anim_scale.adjustment.upper - 1 / 10 then
        gtk_range_set_value emit self 0
      else pure self
    pure { self with last_anim_frame_time := now, playing_animation := true }
  else
    Except.ok { self with playing_animation := false }

/-- The callback `on_anim_scale_changed`. -/
def on_anim_scale_changed (emit : Emit) (self : Explorer) : Except Fault Explorer :=
  let v := self.anim_scale.adjustment.value
  let iter := animation_iter_seek self.animation v
  if !iter.valid then Except.ok self
  else do
    let dejong ← animation_iter_load_dejong self.animation iter
    let self := { self with dejong := dejong }
    let self ←
      if !self.selecting_keyframe then do
        let self := { self with seeking_animation := true }
        let self ← gtk_tree_view_set_cursor emit self iter.keyframe
        pure { self with seeking_animation := false }
      else pure self
    if !self.playing_animation then
      pure { self with render_passes := self.render_passes + 1 }
    else pure self

/-- The callback `on_anim_new`; clearing the store leaves the view without a
cursor. -/
def on_anim_new (self : Explorer) : Explorer :=
  explorer_update_animation_length
    { self with animation := animation_clear self.animation, keyframe_view := none }

/-- The callback `on_anim_open`: `response_ok` tells whether the file dialog
was confirmed, `file` is what the chosen file decodes to. -/
def on_anim_open (response_ok : Bool) (file : Option Timeline) (self : Explorer) : Explorer :=
  if response_ok then
    explorer_update_animation_length
      { self with animation := animation_load_file self.animation file, keyframe_view := none }
  else self

/-- The signal wiring made by `explorer_init_animation`: each signal runs its
callback, and the setters called inside a callback deliver their own signals
the same way.  The fuel bounds the depth of such a cascade. -/
def dispatch (now : GTimeVal) : Nat → Signal → Explorer → Except Fault Explorer
  | 0, _, _ => Except.error Fault.out_of_fuel
  | n + 1, Signal.anim_scale_changed, self => on_anim_scale_changed (dispatch now n) self
  | n + 1, Signal.anim_play_toggled, self => on_anim_play_toggled (dispatch now n) now self
  | n + 1, Signal.keyframe_view_cursor_changed, self =>
    on_keyframe_view_cursor_changed (dispatch now n) self
  | _ + 1, Signal.keyframe_duration_change, self => on_keyframe_duration_change self
  | _ + 1, Signal.anim_curve_changed, self => on_anim_curve_changed self

/-- The value the duration spin button holds after `gtk_spin_button_set_value`. -/
def spin_value_after (adj : GtkAdjustment) (value : ℚ) : ℚ :=
  if |value - adj.value| > EPSILON then CLAMP value adj.lower adj.upper else adj.value

/-- Net effect of loading a row's transition into the duration spin button and
the curve editor while `allow_transition_changes` is off. -/
def transition_loaded (s : Explorer) (row : Keyframe) : Explorer :=
  { s with
    allow_transition_changes := true
    keyframe_duration :=
      { adjustment := { s.keyframe_duration.adjustment with
          value := spin_value_after s.keyframe_duration.adjustment row.duration } }
    anim_curve := row.spline }

/-- The interpolated frame at the scale's current value, when there is one. -/
def seek_frame (s : Explorer) : ParameterVector :=
  match animation_iter_load_dejong s.animation
      (animation_iter_seek s.animation s.anim_scale.adjustment.value) with
  | Except.ok p => p
  | Except.error _ => s.dejong

/-- Net effect of `on_anim_scale_changed` once its nested signals are done. -/
def seek_result (s : Explorer) : Explorer :=
  let iter := animation_iter_seek s.animation s.anim_scale.adjustment.value
  if iter.valid then
    let s1 := { s with dejong := seek_frame s }
    let s2 :=
      if s1.selecting_keyframe then s1
      else
        match s.animation[iter.keyframe]? with
        | some row =>
          { transition_loaded
              { s1 with seeking_animation := true, keyframe_view := some iter.keyframe,
                        keyframe_delete_button := true, keyframe_replace_button := true,
                        anim_transition_box := true } row
            with seeking_animation := false }
        | none => s1
    if s2.playing_animation then s2 else { s2 with render_passes := s2.render_passes + 1 }
  else s

/-- The value `gtk_range_set_value` stores for a requested value. -/
def range_value_after (adj : GtkAdjustment) (value : ℚ) : ℚ :=
  CLAMP (CLAMP value adj.lower (adj.upper - adj.page_size)) adj.lower adj.upper

/-- Net effect of `gtk_range_set_value` once its nested signals are done. -/
def range_result (s : Explorer) (value : ℚ) : Explorer :=
  let v := range_value_after s.anim_scale.adjustment value
  if v ≠ s.anim_scale.adjustment.value then
    seek_result { s with anim_scale := { s.anim_scale with
      adjustment := { s.anim_scale.adjustment with value := v } } }
  else s

/-- Net effect of `gtk_toggle_button_set_active` with `FALSE` on the play
button once `on_anim_play_toggled` has run. -/
def play_switched_off (s : Explorer) : Explorer :=
  if s.anim_play_button.active = true then
    { s with anim_play_button := { s.anim_play_button with active := false },
             playing_animation := false }
  else s

/-- Net effect of `on_keyframe_view_cursor_changed` on row `k` when it was not
set off by a seek. -/
def select_result (s : Explorer) (k : Nat) (row : Keyframe) : Explorer :=
  let s1 := range_result
    { s with keyframe_delete_button := true, keyframe_replace_button := true,
             anim_transition_box := true, selecting_keyframe := true }
    (animation_keyframe_get_time s.animation k)
  let s2 := play_switched_off s1
  transition_loaded { s2 with selecting_keyframe := false, allow_transition_changes := false } row

/-- Net effect of the playback tick `explorer_update_animation`. -/
def tick_result (now : GTimeVal) (s : Explorer) : Explorer :=
  if s.playing_animation = true then
    let s1 := { s with last_anim_frame_time := now }
    let adj := s.anim_scale.adjustment
    let new_value := adj.value + frame_time_diff now s.last_anim_frame_time
    if new_value < adj.upper then range_result s1 new_value
    else if s.loop_animation = true then range_result s1 adj.lower
    else play_switched_off (range_result s1 adj.upper)
  else s

/-- Net effect of `on_anim_play_toggled`. -/
def play_toggled_result (now : GTimeVal) (s : Explorer) : Explorer :=
  if s.anim_play_button.active = true then
    let s1 :=
      if s.anim_scale.adjustment.value ≥ s.anim_scale.adjustment.upper - 1 / 10 then
        range_result s 0
      else s
    { s1 with last_anim_frame_time := now, playing_animation := true }
  else { s with playing_animation := false }

/-- The scale's range agrees with the timeline: what
`explorer_update_animation_length` establishes. -/
def InSync (s : Explorer) : Prop :=
  s.anim_scale.adjustment.lower = 0 ∧ s.anim_scale.adjustment.page_size = 0 ∧
  (animation_get_length s.animation > 1 / 10000 →
    s.anim_scale.adjustment.upper = animation_get_length s.animation ∧
    s.anim_scale.sensitive = true ∧ s.anim_play_button.sensitive = true) ∧
  (animation_get_length s.animation ≤ 1 / 10000 →
    s.anim_scale.adjustment.upper = 1 ∧
    s.anim_scale.sensitive = false ∧ s.anim_play_button.sensitive = false)

/-- The concrete scenario of spec section 8: three keyframes, the first two
with linear transitions of 2 and 1 time units. -/
def scenario_timeline : Timeline :=
  [ { parameters := ⟨0, 0, 0, 0⟩, spline := spline_template_linear, duration := 2 },
    { parameters := ⟨10, 10, 0, 0⟩, spline := spline_template_linear, duration := 1 },
    { parameters := ⟨10, 0, 0, 0⟩, spline := spline_template_linear, duration := 1 } ]

/-- An editor at rest on the scenario timeline: the scale at 0 with range
`[0, 3]`, nothing playing, the cursor on the first keyframe. -/
def scenario_state : Explorer :=
  { animation := scenario_timeline
    dejong := ⟨1, 2, 3, 4⟩
    seeking_animation := false
    selecting_keyframe := false
    playing_animation := false
    allow_transition_changes := true
    last_anim_frame_time := { tv_sec := 10, tv_usec := 0 }
    anim_curve := spline_template_smooth
    anim_scale := { adjustment := gtk_adjustment_new 0 0 3 (1 / 100) 1 0, sensitive := true }
    anim_play_button := { active := false, sensitive := true }
    loop_animation := false
    keyframe_view := some 0
    keyframe_duration := { adjustment := gtk_adjustment_new 2 (-100) 100 1 10 0 }
    keyframe_delete_button := true
    keyframe_replace_button := true
    anim_transition_box := true
    render_passes := 0 }

/-- A timeline whose first transition has duration zero. -/
def zero_duration_timeline : Timeline :=
  [ { parameters := ⟨1, 1, 1, 1⟩, spline := spline_template_linear, duration := 0 },
    { parameters := ⟨2, 2, 2, 2⟩, spline := spline_template_linear, duration := 1 },
    { parameters := ⟨3, 3, 3, 3⟩, spline := spline_template_linear, duration := 1 } ]

/-- A two keyframe timeline whose free-form curve starts at height one half. -/
def raised_curve_timeline : Timeline :=
  [ { parameters := ⟨1, 1, 1, 1⟩,
      spline := { kind := SplineKind.free_form, points := [(0, 1 / 2), (1, 1)] },
      duration := 1 },
    { parameters := ⟨3, 3, 3, 3⟩, spline := spline_template_linear, duration := 1 } ]

/-- The scenario state after the user typed `-1` into the duration spin
button, whose range here admits it. -/
def negative_duration_state : Explorer :=
  { scenario_state with
    keyframe_duration := { adjustment := gtk_adjustment_new (-1) (-100) 100 1 10 0 } }

/-- The scenario state while playing, with a frame time of 10 s on record. -/
def playing_state : Explorer :=
  { scenario_state with
    playing_animation := true
    anim_play_button := { active := true, sensitive := true } }

/-- The scenario state with the scale at the end of its range and the play
button just pressed. -/
def pressed_at_end_state : Explorer :=
  { scenario_state with
    anim_scale := { adjustment := gtk_adjustment_new 3 0 3 (1 / 100) 1 0, sensitive := true }
    anim_play_button := { active := true, sensitive := true } }

/-- The state between two events: the two flags are down, `playing_animation`
mirrors the play button, and the scale is in sync with the timeline. -/
def AtRest (s : Explorer) : Prop :=
  s.seeking_animation = false ∧ s.selecting_keyframe = false ∧
  s.playing_animation = s.anim_play_button.active ∧ InSync s

/-- The data model's constraint on durations: none is negative. -/
def DurationsNonneg (t : Timeline) : Prop := ∀ row ∈ t, 0 ≤ row.duration

/-! ## Supporting lemmas and the claims -/

theorem animation_keyframe_get_time_zero (t : Timeline) : animation_keyframe_get_time t 0 = 0 := by
  simp [animation_keyframe_get_time]

theorem animation_get_length_eq_time (t : Timeline) :
    animation_get_length t = animation_keyframe_get_time t (t.length - 1) := by
  simp [animation_get_length, animation_keyframe_get_time, List.dropLast_eq_take]

theorem animation_get_length_short (t : Timeline) (h : t.length < 2) :
    animation_get_length t = 0 := by
  match t, h with
  | [], _ => simp [animation_get_length]
  | [k], _ => simp [animation_get_length]

theorem exists_step (f : Nat → ℚ) (x : ℚ) (n : Nat) (h0 : f 0 ≤ x) (hn : x < f n) :
    ∃ i, i < n ∧ f i ≤ x ∧ x < f (i + 1) := by
  induction n with
  | zero => exact absurd hn (not_lt.mpr h0)
  | succ m ih =>
    by_cases hm : x < f m
    · obtain ⟨i, hi, h1, h2⟩ := ih hm
      exact ⟨i, Nat.lt_succ_of_lt hi, h1, h2⟩
    · exact ⟨m, Nat.lt_succ_self m, not_lt.mp hm, hn⟩

theorem find_segment_some (t : Timeline) (x : ℚ) (i : Nat) (h : find_segment t x = some i) :
    i < t.length - 1 ∧ animation_keyframe_get_time t i ≤ x ∧
      x < animation_keyframe_get_time t (i + 1) := by
  unfold find_segment at h
  have hp := List.find?_some h
  have hm := List.mem_of_find?_eq_some h
  simp only [Bool.and_eq_true, decide_eq_true_eq] at hp
  exact ⟨List.mem_range.mp hm, hp.1, hp.2⟩

theorem find_segment_exists (t : Timeline) (x : ℚ) (h0 : 0 ≤ x) (h1 : x < animation_get_length t) :
    ∃ i, find_segment t x = some i := by
  rw [animation_get_length_eq_time] at h1
  obtain ⟨i, hi, ha, hb⟩ := exists_step (animation_keyframe_get_time t) x (t.length - 1)
    (by rw [animation_keyframe_get_time_zero]; exact h0) h1
  have : (find_segment t x).isSome := by
    unfold find_segment
    rw [List.find?_isSome]
    exact ⟨i, List.mem_range.mpr hi, by simp [ha, hb]⟩
  exact Option.isSome_iff_exists.mp this

theorem animation_iter_seek_valid_iff (t : Timeline) (x : ℚ) :
    (animation_iter_seek t x).valid = true ↔ 0 ≤ x ∧ x < animation_get_length t := by
  unfold animation_iter_seek
  constructor
  · intro h
    split_ifs at h with hc
    · simp [AnimationIter.invalid] at h
    · push_neg at hc
      exact ⟨hc.2.1, hc.2.2⟩
  · rintro ⟨h0, h1⟩
    have hlen : ¬ t.length < 2 := by
      intro hl
      rw [animation_get_length_short t hl] at h1
      exact absurd h1 (not_lt.mpr h0)
    obtain ⟨i, hi⟩ := find_segment_exists t x h0 h1
    have hc : ¬ (t.length < 2 ∨ x < 0 ∨ x ≥ animation_get_length t) := by
      push_neg
      exact ⟨not_lt.mp hlen, h0, h1⟩
    rw [if_neg hc, hi]

theorem animation_iter_seek_keyframe_lt (t : Timeline) (x : ℚ)
    (h : (animation_iter_seek t x).valid = true) :
    (animation_iter_seek t x).keyframe + 1 < t.length := by
  unfold animation_iter_seek at h ⊢
  split_ifs at h ⊢ with hc
  · simp [AnimationIter.invalid] at h
  · cases hf : find_segment t x with
    | none => simp [hf, AnimationIter.invalid] at h
    | some i =>
      have := (find_segment_some t x i hf).1
      simp only [hf]
      omega

theorem animation_iter_load_dejong_ok (t : Timeline) (x : ℚ)
    (h : (animation_iter_seek t x).valid = true) :
    ∃ p, animation_iter_load_dejong t (animation_iter_seek t x) = Except.ok p := by
  have hlt := animation_iter_seek_keyframe_lt t x h
  unfold animation_iter_load_dejong
  rw [if_pos h]
  have h0 : (animation_iter_seek t x).keyframe < t.length := by omega
  rw [List.getElem?_eq_getElem h0, List.getElem?_eq_getElem hlt]
  exact ⟨_, rfl⟩


theorem gtk_spin_button_set_value_quiet (now : GTimeVal) (n : Nat) (s : Explorer) (d : ℚ)
    (h : s.allow_transition_changes = false) :
    gtk_spin_button_set_value (dispatch now (n + 1)) s d =
      Except.ok { s with keyframe_duration :=
        { adjustment := { s.keyframe_duration.adjustment with
            value := spin_value_after s.keyframe_duration.adjustment d } } } := by
  unfold gtk_spin_button_set_value spin_value_after
  by_cases h1 : |d - s.keyframe_duration.adjustment.value| > EPSILON
  · by_cases h2 : CLAMP d s.keyframe_duration.adjustment.lower s.keyframe_duration.adjustment.upper
        ≠ s.keyframe_duration.adjustment.value
    · simp [h1, h2, dispatch, on_keyframe_duration_change, h]
    · simp only [h1, h2, if_true, if_false]
      push_neg at h2
      rw [h2]
  · simp only [h1, if_false]

theorem curve_editor_set_spline_quiet (now : GTimeVal) (n : Nat) (s : Explorer) (sp : Spline)
    (h : s.allow_transition_changes = false) :
    curve_editor_set_spline (dispatch now (n + 1)) s sp = Except.ok { s with anim_curve := sp } := by
  simp [curve_editor_set_spline, dispatch, on_anim_curve_changed, h]

theorem gtk_toggle_button_set_active_false (now : GTimeVal) (n : Nat) (s : Explorer) :
    gtk_toggle_button_set_active (dispatch now (n + 1)) s false =
      Except.ok (play_switched_off s) := by
  unfold gtk_toggle_button_set_active play_switched_off
  by_cases h : s.anim_play_button.active = true
  · simp [h, dispatch, on_anim_play_toggled]
  · simp [h]

theorem on_keyframe_view_cursor_changed_seeking (now : GTimeVal) (n : Nat) (s : Explorer)
    (hs : s.seeking_animation = true) :
    on_keyframe_view_cursor_changed (dispatch now (n + 1)) s =
      match s.keyframe_view with
      | some k =>
        match s.animation[k]? with
        | some row =>
          Except.ok (transition_loaded
            { s with keyframe_delete_button := true, keyframe_replace_button := true,
                     anim_transition_box := true } row)
        | none => Except.error Fault.no_current_keyframe
      | none => Except.error Fault.no_current_keyframe := by
  cases hc : s.keyframe_view with
  | none => simp [on_keyframe_view_cursor_changed, explorer_get_current_keyframe, hc, bind,
      Except.bind]
  | some k =>
    by_cases hk : k < s.animation.length
    · simp [on_keyframe_view_cursor_changed, explorer_get_current_keyframe, hc, hk, bind,
        Except.bind, hs, pure, Except.pure, List.getElem?_eq_getElem hk,
        gtk_spin_button_set_value_quiet, curve_editor_set_spline_quiet, transition_loaded]
    · simp [on_keyframe_view_cursor_changed, explorer_get_current_keyframe, hc, hk, bind,
        Except.bind, List.getElem?_eq_none (not_lt.mp hk)]

theorem on_anim_scale_changed_eq (now : GTimeVal) (n : Nat) (s : Explorer) :
    on_anim_scale_changed (dispatch now (n + 2)) s = Except.ok (seek_result s) := by
  unfold on_anim_scale_changed seek_result seek_frame
  by_cases hv : (animation_iter_seek s.animation s.anim_scale.adjustment.value).valid = true
  · obtain ⟨p, hp⟩ := animation_iter_load_dejong_ok _ _ hv
    have hlt := animation_iter_seek_keyframe_lt _ _ hv
    have hrow : s.animation[(animation_iter_seek s.animation
        s.anim_scale.adjustment.value).keyframe]? = some (s.animation[(animation_iter_seek
          s.animation s.anim_scale.adjustment.value).keyframe]) :=
      List.getElem?_eq_getElem (by omega)
    simp only [hv, hp, bind, Except.bind, pure, Except.pure, Bool.not_true, if_true]
    cases hplay : s.playing_animation <;> cases hsel : s.selecting_keyframe <;>
      simp [hsel, hplay, gtk_tree_view_set_cursor, dispatch, hrow,
        on_keyframe_view_cursor_changed_seeking, transition_loaded]
  · simp [hv]

theorem on_anim_scale_changed_selecting (emit : Emit) (s : Explorer)
    (hsel : s.selecting_keyframe = true) :
    on_anim_scale_changed emit s = Except.ok (seek_result s) := by
  unfold on_anim_scale_changed seek_result seek_frame
  by_cases hv : (animation_iter_seek s.animation s.anim_scale.adjustment.value).valid = true
  · obtain ⟨p, hp⟩ := animation_iter_load_dejong_ok _ _ hv
    cases hplay : s.playing_animation <;>
      simp [hv, hp, bind, Except.bind, pure, Except.pure, hsel, hplay]
  · simp [hv]

theorem gtk_range_set_value_eq (now : GTimeVal) (n : Nat) (s : Explorer) (x : ℚ) :
    gtk_range_set_value (dispatch now (n + 3)) s x = Except.ok (range_result s x) := by
  unfold gtk_range_set_value range_result range_value_after
  simp only [dispatch, on_anim_scale_changed_eq]
  split_ifs <;> rfl

theorem gtk_range_set_value_selecting (now : GTimeVal) (n : Nat) (s : Explorer) (x : ℚ)
    (hsel : s.selecting_keyframe = true) :
    gtk_range_set_value (dispatch now (n + 1)) s x = Except.ok (range_result s x) := by
  unfold gtk_range_set_value range_result range_value_after
  simp only [dispatch]
  split_ifs with h
  · exact on_anim_scale_changed_selecting _ _ hsel
  · rfl

theorem seek_result_invalid (s : Explorer)
    (h : (animation_iter_seek s.animation s.anim_scale.adjustment.value).valid = false) :
    seek_result s = s := by
  simp [seek_result, h]

theorem seek_result_frame (s : Explorer) :
    (seek_result s).animation = s.animation ∧
    (seek_result s).anim_scale = s.anim_scale ∧
    (seek_result s).anim_play_button = s.anim_play_button ∧
    (seek_result s).playing_animation = s.playing_animation ∧
    (seek_result s).selecting_keyframe = s.selecting_keyframe ∧
    (seek_result s).last_anim_frame_time = s.last_anim_frame_time ∧
    (seek_result s).loop_animation = s.loop_animation := by
  unfold seek_result
  cases hv : (animation_iter_seek s.animation s.anim_scale.adjustment.value).valid <;>
  cases hsel : s.selecting_keyframe <;> cases hplay : s.playing_animation <;>
  cases hrow : s.animation[(animation_iter_seek s.animation
    s.anim_scale.adjustment.value).keyframe]? <;>
  simp [hv, hrow, hsel, hplay, transition_loaded]

@[simp] theorem seek_result_animation (s : Explorer) :
    (seek_result s).animation = s.animation := (seek_result_frame s).1

@[simp] theorem seek_result_anim_scale (s : Explorer) :
    (seek_result s).anim_scale = s.anim_scale := (seek_result_frame s).2.1

@[simp] theorem seek_result_anim_play_button (s : Explorer) :
    (seek_result s).anim_play_button = s.anim_play_button := (seek_result_frame s).2.2.1

@[simp] theorem seek_result_playing_animation (s : Explorer) :
    (seek_result s).playing_animation = s.playing_animation := (seek_result_frame s).2.2.2.1

@[simp] theorem seek_result_selecting_keyframe (s : Explorer) :
    (seek_result s).selecting_keyframe = s.selecting_keyframe := (seek_result_frame s).2.2.2.2.1

@[simp] theorem seek_result_last_anim_frame_time (s : Explorer) :
    (seek_result s).last_anim_frame_time = s.last_anim_frame_time :=
  (seek_result_frame s).2.2.2.2.2.1

@[simp] theorem seek_result_loop_animation (s : Explorer) :
    (seek_result s).loop_animation = s.loop_animation := (seek_result_frame s).2.2.2.2.2.2

theorem seek_result_selecting (s : Explorer) (hsel : s.selecting_keyframe = true) :
    (seek_result s).seeking_animation = s.seeking_animation ∧
    (seek_result s).allow_transition_changes = s.allow_transition_changes ∧
    (seek_result s).keyframe_view = s.keyframe_view ∧
    (seek_result s).keyframe_duration = s.keyframe_duration ∧
    (seek_result s).anim_curve = s.anim_curve := by
  unfold seek_result
  cases hv : (animation_iter_seek s.animation s.anim_scale.adjustment.value).valid <;>
  cases hplay : s.playing_animation <;> simp [hv, hsel, hplay]

theorem seek_result_dejong (s : Explorer) (p : ParameterVector)
    (hv : (animation_iter_seek s.animation s.anim_scale.adjustment.value).valid = true)
    (hp : animation_iter_load_dejong s.animation
      (animation_iter_seek s.animation s.anim_scale.adjustment.value) = Except.ok p) :
    (seek_result s).dejong = p := by
  unfold seek_result seek_frame
  cases hsel : s.selecting_keyframe <;> cases hplay : s.playing_animation <;>
  cases hrow : s.animation[(animation_iter_seek s.animation
    s.anim_scale.adjustment.value).keyframe]? <;>
  simp [hv, hp, hrow, hsel, hplay, transition_loaded]

theorem seek_result_seeking (s : Explorer)
    (hv : (animation_iter_seek s.animation s.anim_scale.adjustment.value).valid = true)
    (hsel : s.selecting_keyframe = false) :
    (seek_result s).seeking_animation = false ∧
    (seek_result s).allow_transition_changes = true ∧
    (seek_result s).keyframe_view =
      some (animation_iter_seek s.animation s.anim_scale.adjustment.value).keyframe := by
  have hlt := animation_iter_seek_keyframe_lt _ _ hv
  have hrow : s.animation[(animation_iter_seek s.animation
      s.anim_scale.adjustment.value).keyframe]? = some (s.animation[(animation_iter_seek
        s.animation s.anim_scale.adjustment.value).keyframe]) :=
    List.getElem?_eq_getElem (by omega)
  unfold seek_result
  cases hplay : s.playing_animation <;> simp [hv, hsel, hplay, hrow, transition_loaded]

theorem range_result_frame (s : Explorer) (x : ℚ) :
    (range_result s x).animation = s.animation ∧
    (range_result s x).anim_scale =
      { s.anim_scale with adjustment := { s.anim_scale.adjustment with
          value := range_value_after s.anim_scale.adjustment x } } ∧
    (range_result s x).anim_play_button = s.anim_play_button ∧
    (range_result s x).playing_animation = s.playing_animation ∧
    (range_result s x).selecting_keyframe = s.selecting_keyframe ∧
    (range_result s x).last_anim_frame_time = s.last_anim_frame_time ∧
    (range_result s x).loop_animation = s.loop_animation := by
  unfold range_result
  by_cases h : range_value_after s.anim_scale.adjustment x ≠ s.anim_scale.adjustment.value
  · simp [h]
  · simp only [h, if_false, true_and]
    push_neg at h
    rw [h]
    simp

@[simp] theorem range_result_animation (s : Explorer) (x : ℚ) :
    (range_result s x).animation = s.animation := (range_result_frame s x).1

@[simp] theorem range_result_anim_scale (s : Explorer) (x : ℚ) :
    (range_result s x).anim_scale =
      { s.anim_scale with adjustment := { s.anim_scale.adjustment with
          value := range_value_after s.anim_scale.adjustment x } } := (range_result_frame s x).2.1

@[simp] theorem range_result_anim_play_button (s : Explorer) (x : ℚ) :
    (range_result s x).anim_play_button = s.anim_play_button := (range_result_frame s x).2.2.1

@[simp] theorem range_result_playing_animation (s : Explorer) (x : ℚ) :
    (range_result s x).playing_animation = s.playing_animation := (range_result_frame s x).2.2.2.1

@[simp] theorem range_result_selecting_keyframe (s : Explorer) (x : ℚ) :
    (range_result s x).selecting_keyframe = s.selecting_keyframe :=
  (range_result_frame s x).2.2.2.2.1

@[simp] theorem range_result_last_anim_frame_time (s : Explorer) (x : ℚ) :
    (range_result s x).last_anim_frame_time = s.last_anim_frame_time :=
  (range_result_frame s x).2.2.2.2.2.1

@[simp] theorem range_result_loop_animation (s : Explorer) (x : ℚ) :
    (range_result s x).loop_animation = s.loop_animation := (range_result_frame s x).2.2.2.2.2.2

theorem range_result_selecting (s : Explorer) (x : ℚ) (hsel : s.selecting_keyframe = true) :
    (range_result s x).seeking_animation = s.seeking_animation ∧
    (range_result s x).allow_transition_changes = s.allow_transition_changes ∧
    (range_result s x).keyframe_view = s.keyframe_view ∧
    (range_result s x).keyframe_duration = s.keyframe_duration ∧
    (range_result s x).anim_curve = s.anim_curve := by
  unfold range_result
  by_cases h : range_value_after s.anim_scale.adjustment x ≠ s.anim_scale.adjustment.value
  · dsimp only
    rw [if_pos h]
    exact seek_result_selecting _ hsel
  · simp [h]

theorem play_switched_off_frame (s : Explorer) :
    (play_switched_off s).animation = s.animation ∧
    (play_switched_off s).anim_scale = s.anim_scale ∧
    (play_switched_off s).dejong = s.dejong ∧
    (play_switched_off s).last_anim_frame_time = s.last_anim_frame_time ∧
    (play_switched_off s).anim_play_button.active = false ∧
    (play_switched_off s).seeking_animation = s.seeking_animation ∧
    (play_switched_off s).selecting_keyframe = s.selecting_keyframe := by
  unfold play_switched_off
  cases h : s.anim_play_button.active <;> simp [h]

@[simp] theorem play_switched_off_animation (s : Explorer) :
    (play_switched_off s).animation = s.animation := (play_switched_off_frame s).1

@[simp] theorem play_switched_off_anim_scale (s : Explorer) :
    (play_switched_off s).anim_scale = s.anim_scale := (play_switched_off_frame s).2.1

@[simp] theorem play_switched_off_dejong (s : Explorer) :
    (play_switched_off s).dejong = s.dejong := (play_switched_off_frame s).2.2.1

@[simp] theorem play_switched_off_last_anim_frame_time (s : Explorer) :
    (play_switched_off s).last_anim_frame_time = s.last_anim_frame_time :=
  (play_switched_off_frame s).2.2.2.1

@[simp] theorem play_switched_off_active (s : Explorer) :
    (play_switched_off s).anim_play_button.active = false :=
  (play_switched_off_frame s).2.2.2.2.1

@[simp] theorem play_switched_off_seeking_animation (s : Explorer) :
    (play_switched_off s).seeking_animation = s.seeking_animation :=
  (play_switched_off_frame s).2.2.2.2.2.1

@[simp] theorem play_switched_off_selecting_keyframe (s : Explorer) :
    (play_switched_off s).selecting_keyframe = s.selecting_keyframe :=
  (play_switched_off_frame s).2.2.2.2.2.2

theorem play_switched_off_playing (s : Explorer)
    (h : s.playing_animation = s.anim_play_button.active) :
    (play_switched_off s).playing_animation = false := by
  unfold play_switched_off
  cases ha : s.anim_play_button.active <;> simp [ha, h]

theorem on_keyframe_view_cursor_changed_select (now : GTimeVal) (n : Nat) (s : Explorer)
    (k : Nat) (row : Keyframe) (hs : s.seeking_animation = false)
    (hc : s.keyframe_view = some k) (hrow : s.animation[k]? = some row) :
    on_keyframe_view_cursor_changed (dispatch now (n + 1)) s =
      Except.ok (select_result s k row) := by
  have hk : k < s.animation.length := by
    by_contra hk
    rw [List.getElem?_eq_none (not_lt.mp hk)] at hrow
    exact absurd hrow (by simp)
  simp [on_keyframe_view_cursor_changed, explorer_get_current_keyframe, hc, hk, bind,
    Except.bind, hs, pure, Except.pure, gtk_range_set_value_selecting,
    gtk_toggle_button_set_active_false, select_result, hrow,
    gtk_spin_button_set_value_quiet, curve_editor_set_spline_quiet, transition_loaded]

theorem explorer_update_animation_eq (now : GTimeVal) (n : Nat) (s : Explorer) :
    explorer_update_animation (dispatch now (n + 3)) now s = Except.ok (tick_result now s) := by
  unfold explorer_update_animation tick_result
  cases hp : s.playing_animation
  · simp
  · cases hl : s.loop_animation <;>
      simp only [Bool.not_true, Bool.false_eq_true, if_false, if_true, gtk_range_set_value_eq,
        bind, Except.bind, gtk_toggle_button_set_active_false] <;>
      split_ifs <;> rfl

theorem on_anim_play_toggled_eq (now : GTimeVal) (n : Nat) (s : Explorer) :
    on_anim_play_toggled (dispatch now (n + 3)) now s =
      Except.ok (play_toggled_result now s) := by
  unfold on_anim_play_toggled play_toggled_result
  cases ha : s.anim_play_button.active
  · simp
  · simp only [if_true, gtk_range_set_value_eq, bind, Except.bind, pure, Except.pure]
    split_ifs <;> rfl

theorem inSync_upper_pos (s : Explorer) (h : InSync s) :
    0 < s.anim_scale.adjustment.upper := by
  obtain ⟨_, _, h1, h2⟩ := h
  by_cases hl : animation_get_length s.animation > 1 / 10000
  · rw [(h1 hl).1]
    exact lt_trans (by norm_num) hl
  · rw [(h2 (not_lt.mp hl)).1]
    norm_num

theorem explorer_update_animation_length_inSync (s : Explorer) :
    InSync (explorer_update_animation_length s) := by
  unfold InSync explorer_update_animation_length gtk_adjustment_new
  refine ⟨rfl, rfl, fun h => ?_, fun h => ?_⟩
  · have h1 : (10000 : ℚ)⁻¹ < animation_get_length s.animation := by
      simpa using h
    simp [h1]
  · have h1 : ¬ (10000 : ℚ)⁻¹ < animation_get_length s.animation := by
      simpa using h
    simp [h1]

theorem scenario_length : animation_get_length scenario_timeline = 3 := by
  norm_num [animation_get_length, scenario_timeline]

theorem scenario_inSync : InSync scenario_state := by
  simp only [InSync, scenario_state, gtk_adjustment_new, scenario_length]
  norm_num

/-- C1.  For every timeline `t` and every time `x`, the cursor produced by
`animation_iter_seek t x` is invalid when `x < 0` or `x ≥ animation_get_length t`,
valid when `0 ≤ x < animation_get_length t`, and in particular invalid at
`x = animation_get_length t`, the upper end of the scale's range. -/
theorem seek_validity (t : Timeline) (x : ℚ) :
    ((x < 0 ∨ x ≥ animation_get_length t) → (animation_iter_seek t x).valid = false) ∧
    ((0 ≤ x ∧ x < animation_get_length t) → (animation_iter_seek t x).valid = true) ∧
    (animation_iter_seek t (animation_get_length t)).valid = false := by
  have key : ∀ y : ℚ, (y < 0 ∨ y ≥ animation_get_length t) →
      (animation_iter_seek t y).valid = false := by
    intro y hy
    cases hv : (animation_iter_seek t y).valid with
    | false => rfl
    | true =>
      have := (animation_iter_seek_valid_iff t y).mp hv
      rcases hy with hy | hy
      · exact absurd hy (not_lt.mpr this.1)
      · exact absurd this.2 (not_lt.mpr hy)
  exact ⟨key x, (animation_iter_seek_valid_iff t x).mpr, key _ (Or.inr (le_refl _))⟩

/-- Witness for C1 on the scenario timeline: the seek at time 1 is valid, the
seek at time 3, the length, is not. -/
theorem seek_validity_witness :
    (animation_iter_seek scenario_timeline 1).valid = true ∧
    (animation_iter_seek scenario_timeline 3).valid = false :=
  ⟨(seek_validity scenario_timeline 1).2.1 ⟨by norm_num, by rw [scenario_length]; norm_num⟩,
   (seek_validity scenario_timeline 3).1 (Or.inr (by rw [scenario_length]))⟩

/-- C2.  For every state, `on_anim_scale_changed` returns without a fault, so
`animation_iter_load_dejong`, which faults on an invalid cursor, is reached
only with a valid one; when the seek is valid the interpolated frame becomes
the live parameter vector, and when the seek is invalid the handler leaves
the whole state as it was: live parameters, cursor, timeline and flags. -/
theorem scale_changed_guard (now : GTimeVal) (fuel : Nat) (s : Explorer) (hf : 2 ≤ fuel) :
    ∃ s', on_anim_scale_changed (dispatch now fuel) s = Except.ok s' ∧
      ((animation_iter_seek s.animation s.anim_scale.adjustment.value).valid = false →
        s' = s ∧
        animation_iter_load_dejong s.animation
          (animation_iter_seek s.animation s.anim_scale.adjustment.value) =
            Except.error Fault.invalid_iterator) ∧
      ((animation_iter_seek s.animation s.anim_scale.adjustment.value).valid = true →
        animation_iter_load_dejong s.animation
          (animation_iter_seek s.animation s.anim_scale.adjustment.value) =
            Except.ok s'.dejong) := by
  obtain ⟨n, rfl⟩ : ∃ n, fuel = n + 2 := ⟨fuel - 2, by omega⟩
  refine ⟨seek_result s, on_anim_scale_changed_eq now n s, ?_, ?_⟩
  · intro hv
    refine ⟨seek_result_invalid s hv, ?_⟩
    simp [animation_iter_load_dejong, hv]
  · intro hv
    obtain ⟨p, hp⟩ := animation_iter_load_dejong_ok _ _ hv
    rw [hp, seek_result_dejong s p hv hp]

/-- Witness for C2: with the scale at 3, the end of the scenario timeline, the
seek is invalid and the handler hands back the state it was given. -/
theorem scale_changed_guard_witness :
    on_anim_scale_changed (dispatch ⟨10, 0⟩ 2) pressed_at_end_state =
      Except.ok pressed_at_end_state := by
  obtain ⟨s', h, hinv, _⟩ := scale_changed_guard ⟨10, 0⟩ 2 pressed_at_end_state (le_refl 2)
  have hv : (animation_iter_seek pressed_at_end_state.animation
      pressed_at_end_state.anim_scale.adjustment.value).valid = false := by
    cases hc : (animation_iter_seek pressed_at_end_state.animation
      pressed_at_end_state.anim_scale.adjustment.value).valid with
    | false => rfl
    | true =>
      have h2 := ((animation_iter_seek_valid_iff _ _).mp hc).2
      have h3 : animation_get_length pressed_at_end_state.animation = 3 := scenario_length
      rw [h3] at h2
      norm_num [pressed_at_end_state, gtk_adjustment_new] at h2
  rw [h, (hinv hv).1]

theorem explorer_get_current_keyframe_ok (s : Explorer) (k : Nat)
    (hc : s.keyframe_view = some k) (hk : k < s.animation.length) :
    explorer_get_current_keyframe s = Except.ok k := by
  simp [explorer_get_current_keyframe, hc, hk]

/-- C3.  After each handler that can change the timeline's length
(`on_keyframe_add`, `on_keyframe_delete`, `on_keyframe_duration_change`,
`on_anim_new`, `on_anim_open`) the scale is in sync with the timeline the
handler leaves behind: lower bound 0, upper bound the length `L` with scale and
play button sensitive when `L > 0.0001`, upper bound 1 with both insensitive
otherwise; and the upper bound is strictly positive.  The two handlers that
can return early (`on_keyframe_duration_change` while transition changes are
off, `on_anim_open` when the dialog is cancelled) then leave timeline and
scale as they were, so a scale that was in sync stays in sync. -/
theorem scale_range_never_stale (s : Explorer) (response_ok : Bool) (file : Option Timeline) :
    (InSync (on_keyframe_add s) ∧ 0 < (on_keyframe_add s).anim_scale.adjustment.upper) ∧
    (∀ k, s.keyframe_view = some k → k < s.animation.length →
      ∃ s', on_keyframe_delete s = Except.ok s' ∧ InSync s' ∧
        0 < s'.anim_scale.adjustment.upper) ∧
    (∀ k, s.keyframe_view = some k → k < s.animation.length →
      (s.allow_transition_changes = true ∨ InSync s) →
      ∃ s', on_keyframe_duration_change s = Except.ok s' ∧ InSync s' ∧
        0 < s'.anim_scale.adjustment.upper) ∧
    (InSync (on_anim_new s) ∧ 0 < (on_anim_new s).anim_scale.adjustment.upper) ∧
    ((response_ok = true ∨ InSync s) →
      InSync (on_anim_open response_ok file s) ∧
        0 < (on_anim_open response_ok file s).anim_scale.adjustment.upper) := by
  have fresh : ∀ u : Explorer, InSync (explorer_update_animation_length u) ∧
      0 < (explorer_update_animation_length u).anim_scale.adjustment.upper :=
    fun u => ⟨explorer_update_animation_length_inSync u,
      inSync_upper_pos _ (explorer_update_animation_length_inSync u)⟩
  refine ⟨fresh _, ?_, ?_, fresh _, ?_⟩
  · intro k hc hk
    simp only [on_keyframe_delete, explorer_get_current_keyframe_ok s k hc hk, bind,
      Except.bind, pure, Except.pure]
    exact ⟨_, rfl, fresh _⟩
  · intro k hc hk h
    cases ha : s.allow_transition_changes
    · have hs : InSync s := by
        rcases h with h | h
        · rw [ha] at h
          exact absurd h (by simp)
        · exact h
      exact ⟨s, by simp [on_keyframe_duration_change, ha], hs, inSync_upper_pos s hs⟩
    · simp only [on_keyframe_duration_change, ha, explorer_get_current_keyframe_ok s k hc hk,
        bind, Except.bind, pure, Except.pure, Bool.not_true, Bool.false_eq_true, if_false]
      exact ⟨_, rfl, fresh _⟩
  · intro h
    cases hr : response_ok
    · have hs : InSync s := by
        rcases h with h | h
        · rw [hr] at h
          exact absurd h (by simp)
        · exact h
      simpa [on_anim_open] using ⟨hs, inSync_upper_pos s hs⟩
    · simpa [on_anim_open] using fresh _

/-- Witness for C3 on the scenario state, whose cursor is on row 0 and whose
transition changes are allowed. -/
theorem scale_range_never_stale_witness :
    (∃ s', on_keyframe_delete scenario_state = Except.ok s' ∧ InSync s' ∧
        0 < s'.anim_scale.adjustment.upper) ∧
    (∃ s', on_keyframe_duration_change scenario_state = Except.ok s' ∧ InSync s' ∧
        0 < s'.anim_scale.adjustment.upper) ∧
    (InSync (on_anim_open true none scenario_state) ∧
        0 < (on_anim_open true none scenario_state).anim_scale.adjustment.upper) :=
  ⟨(scale_range_never_stale scenario_state true none).2.1 0 rfl (by decide),
   (scale_range_never_stale scenario_state true none).2.2.1 0 rfl (by decide) (Or.inl rfl),
   (scale_range_never_stale scenario_state true none).2.2.2.2 (Or.inl rfl)⟩

theorem animation_keyframe_get_time_succ (t : Timeline) (i : Nat) (hi : i < t.length) :
    animation_keyframe_get_time t (i + 1) = animation_keyframe_get_time t i + t[i].duration := by
  unfold animation_keyframe_get_time
  rw [List.take_succ, List.getElem?_eq_getElem hi, List.map_append, List.sum_append]
  simp

theorem animation_keyframe_get_time_succ_of_ge (t : Timeline) (i : Nat) (hi : t.length ≤ i) :
    animation_keyframe_get_time t (i + 1) = animation_keyframe_get_time t i := by
  simp [animation_keyframe_get_time, List.take_of_length_le hi,
    List.take_of_length_le (Nat.le_succ_of_le hi)]

theorem animation_keyframe_get_time_mono (t : Timeline)
    (hdur : ∀ row ∈ t, 0 ≤ row.duration) :
    Monotone (animation_keyframe_get_time t) := by
  apply monotone_nat_of_le_succ
  intro i
  by_cases hi : i < t.length
  · rw [animation_keyframe_get_time_succ t i hi]
    have := hdur t[i] (List.getElem_mem hi)
    linarith
  · rw [animation_keyframe_get_time_succ_of_ge t i (not_lt.mp hi)]

theorem animation_keyframe_get_time_nonneg (t : Timeline)
    (hdur : ∀ row ∈ t, 0 ≤ row.duration) (i : Nat) : 0 ≤ animation_keyframe_get_time t i := by
  have := animation_keyframe_get_time_mono t hdur (Nat.zero_le i)
  rwa [animation_keyframe_get_time_zero] at this

theorem animation_keyframe_get_time_le_length (t : Timeline)
    (hdur : ∀ row ∈ t, 0 ≤ row.duration) (i : Nat) (hi : i < t.length) :
    animation_keyframe_get_time t i ≤ animation_get_length t := by
  rw [animation_get_length_eq_time]
  exact animation_keyframe_get_time_mono t hdur (by omega)

theorem inSync_time_le_upper (s : Explorer) (hsync : InSync s)
    (hdur : ∀ row ∈ s.animation, 0 ≤ row.duration) (i : Nat) (hi : i < s.animation.length) :
    animation_keyframe_get_time s.animation i ≤ s.anim_scale.adjustment.upper := by
  have hle := animation_keyframe_get_time_le_length s.animation hdur i hi
  obtain ⟨_, _, h1, h2⟩ := hsync
  by_cases hl : animation_get_length s.animation > 1 / 10000
  · rw [(h1 hl).1]
    exact hle
  · rw [(h2 (not_lt.mp hl)).1]
    have := not_lt.mp hl
    linarith

theorem range_value_after_eq (adj : GtkAdjustment) (x : ℚ) (hps : adj.page_size = 0)
    (h0 : adj.lower ≤ x) (h1 : x ≤ adj.upper) : range_value_after adj x = x := by
  unfold range_value_after CLAMP
  rw [hps, sub_zero]
  have a1 : ¬ x > adj.upper := not_lt.mpr h1
  have a2 : ¬ x < adj.lower := not_lt.mpr h0
  simp only [a1, a2, if_false]

theorem transition_loaded_frame (s : Explorer) (row : Keyframe) :
    (transition_loaded s row).animation = s.animation ∧
    (transition_loaded s row).anim_scale = s.anim_scale ∧
    (transition_loaded s row).dejong = s.dejong ∧
    (transition_loaded s row).playing_animation = s.playing_animation ∧
    (transition_loaded s row).selecting_keyframe = s.selecting_keyframe ∧
    (transition_loaded s row).seeking_animation = s.seeking_animation ∧
    (transition_loaded s row).allow_transition_changes = true := by
  simp [transition_loaded]

theorem on_keyframe_view_cursor_changed_ok (now : GTimeVal) (n : Nat) (s : Explorer) (k : Nat)
    (hc : s.keyframe_view = some k) (hk : k < s.animation.length) :
    ∃ base, on_keyframe_view_cursor_changed (dispatch now (n + 1)) s =
      Except.ok (transition_loaded base s.animation[k]) ∧ base.animation = s.animation ∧
      (s.seeking_animation = false →
        transition_loaded base s.animation[k] = select_result s k s.animation[k]) := by
  have hrow : s.animation[k]? = some s.animation[k] := List.getElem?_eq_getElem hk
  cases hs : s.seeking_animation
  · refine ⟨_, on_keyframe_view_cursor_changed_select now n s k _ hs hc hrow, ?_, fun _ => rfl⟩
    simp
  · refine ⟨{ s with keyframe_delete_button := true, keyframe_replace_button := true,
                     anim_transition_box := true }, ?_, rfl, fun h => absurd h (by simp)⟩
    rw [on_keyframe_view_cursor_changed_seeking now n s hs]
    simp only [hc, hrow]

/-- C10.  Selecting a keyframe never edits the timeline: for every state whose
cursor is on a row, `on_keyframe_view_cursor_changed` returns, the rows of the
timeline (every keyframe's duration and spline) and the animation length are
the same afterwards, and `allow_transition_changes` is true on return. -/
theorem selecting_keeps_timeline (now : GTimeVal) (fuel : Nat) (s : Explorer) (k : Nat)
    (hf : 1 ≤ fuel) (hc : s.keyframe_view = some k) (hk : k < s.animation.length) :
    ∃ s', on_keyframe_view_cursor_changed (dispatch now fuel) s = Except.ok s' ∧
      s'.animation = s.animation ∧
      s'.animation.map Keyframe.duration = s.animation.map Keyframe.duration ∧
      s'.animation.map Keyframe.spline = s.animation.map Keyframe.spline ∧
      animation_get_length s'.animation = animation_get_length s.animation ∧
      s'.allow_transition_changes = true := by
  obtain ⟨n, rfl⟩ : ∃ n, fuel = n + 1 := ⟨fuel - 1, by omega⟩
  obtain ⟨base, h, hb, _⟩ := on_keyframe_view_cursor_changed_ok now n s k hc hk
  have ha : (transition_loaded base s.animation[k]).animation = s.animation := by
    rw [(transition_loaded_frame _ _).1, hb]
  exact ⟨_, h, ha, by rw [ha], by rw [ha], by rw [ha], (transition_loaded_frame _ _).2.2.2.2.2.2⟩

/-- Witness for C10 on the scenario state, whose cursor is on row 0. -/
theorem selecting_keeps_timeline_witness :
    ∃ s', on_keyframe_view_cursor_changed (dispatch ⟨10, 0⟩ 1) scenario_state = Except.ok s' ∧
      s'.animation = scenario_state.animation ∧
      s'.animation.map Keyframe.duration = scenario_state.animation.map Keyframe.duration ∧
      s'.animation.map Keyframe.spline = scenario_state.animation.map Keyframe.spline ∧
      animation_get_length s'.animation = animation_get_length scenario_state.animation ∧
      s'.allow_transition_changes = true :=
  selecting_keeps_timeline ⟨10, 0⟩ 1 scenario_state 0 (le_refl 1) rfl (by decide)

theorem scenario_durations : DurationsNonneg scenario_state.animation := by
  intro row hrow
  simp only [scenario_state, scenario_timeline, List.mem_cons, List.mem_singleton,
    List.mem_nil_iff, or_false] at hrow
  rcases hrow with h | h | h <;> rw [h] <;> norm_num

theorem blend_zero (p q : ParameterVector) : p.blend q 0 = p := by
  cases p
  simp [ParameterVector.blend]

theorem animation_iter_seek_at_keyframe (t : Timeline) (i : Nat)
    (hdur : ∀ row ∈ t, 0 ≤ row.duration) (hi : i + 1 < t.length)
    (hpos : 0 < (t[i]).duration) :
    animation_iter_seek t (animation_keyframe_get_time t i) =
      { valid := true, keyframe := i, localProgress := 0 } := by
  have hmono := animation_keyframe_get_time_mono t hdur
  have h0 := animation_keyframe_get_time_nonneg t hdur i
  have hsucc := animation_keyframe_get_time_succ t i (by omega)
  have hlt : animation_keyframe_get_time t i < animation_keyframe_get_time t (i + 1) := by
    rw [hsucc]
    linarith
  have hL := animation_keyframe_get_time_le_length t hdur (i + 1) hi
  have hxL : animation_keyframe_get_time t i < animation_get_length t := lt_of_lt_of_le hlt hL
  obtain ⟨j, hj⟩ := find_segment_exists t _ h0 hxL
  obtain ⟨_, hj1, hj2⟩ := find_segment_some t _ j hj
  have hji : j = i := by
    rcases Nat.lt_trichotomy j i with h | h | h
    · have := hmono (show j + 1 ≤ i from h)
      exact absurd hj2 (not_lt.mpr this)
    · exact h
    · have := hmono (show i + 1 ≤ j from h)
      exact absurd hlt (not_lt.mpr (le_trans this hj1))
  subst hji
  have hc : ¬ (t.length < 2 ∨ animation_keyframe_get_time t j < 0 ∨
      animation_keyframe_get_time t j ≥ animation_get_length t) := by
    push_neg
    exact ⟨by omega, h0, hxL⟩
  have hd : (List.map Keyframe.duration t).getD j 0 = (t[j]).duration := by
    rw [List.getD_eq_getElem?_getD, List.getElem?_map, List.getElem?_eq_getElem (by omega)]
    rfl
  unfold animation_iter_seek
  rw [if_neg hc, hj]
  simp only [hd, sub_self, zero_div, ne_of_gt hpos, if_false]

theorem resolve_at_keyframe (t : Timeline) (i : Nat)
    (hdur : ∀ row ∈ t, 0 ≤ row.duration) (hi : i + 1 < t.length)
    (hpos : 0 < (t[i]).duration) (hcurve : spline_evaluate (t[i]).spline 0 = 0) :
    animation_iter_load_dejong t (animation_iter_seek t (animation_keyframe_get_time t i)) =
      Except.ok (t[i]).parameters := by
  rw [animation_iter_seek_at_keyframe t i hdur hi hpos]
  unfold animation_iter_load_dejong
  simp only [if_true, List.getElem?_eq_getElem (show i < t.length by omega),
    List.getElem?_eq_getElem hi, hcurve, blend_zero]

theorem zero_duration_seek :
    animation_iter_seek zero_duration_timeline (animation_keyframe_get_time zero_duration_timeline 0) =
      { valid := true, keyframe := 1, localProgress := 0 } := by
  have hr : List.range 2 = [0, 1] := by decide
  simp [animation_iter_seek, find_segment, animation_keyframe_get_time, animation_get_length,
    zero_duration_timeline, hr, List.find?]

theorem zero_duration_load :
    animation_iter_load_dejong zero_duration_timeline
      (animation_iter_seek zero_duration_timeline
        (animation_keyframe_get_time zero_duration_timeline 0)) = Except.ok ⟨2, 2, 2, 2⟩ := by
  rw [zero_duration_seek]
  simp [animation_iter_load_dejong, zero_duration_timeline, spline_evaluate, CLAMP,
    spline_template_linear, ParameterVector.blend]
  norm_num

theorem raised_curve_load :
    animation_iter_load_dejong raised_curve_timeline
      (animation_iter_seek raised_curve_timeline
        (animation_keyframe_get_time raised_curve_timeline 0)) = Except.ok ⟨2, 2, 2, 2⟩ := by
  have hs : animation_iter_seek raised_curve_timeline
      (animation_keyframe_get_time raised_curve_timeline 0) =
      { valid := true, keyframe := 0, localProgress := 0 } := by
    have hr : List.range 1 = [0] := by decide
    simp [animation_iter_seek, find_segment, animation_keyframe_get_time, animation_get_length,
      raised_curve_timeline, hr, List.find?]
  rw [hs]
  simp [animation_iter_load_dejong, raised_curve_timeline, spline_evaluate, CLAMP,
    piecewise_linear, ParameterVector.blend]
  norm_num

theorem select_result_dejong (s : Explorer) (k : Nat) (row : Keyframe) :
    (select_result s k row).dejong =
      (range_result
        { s with keyframe_delete_button := true, keyframe_replace_button := true,
                 anim_transition_box := true, selecting_keyframe := true }
        (animation_keyframe_get_time s.animation k)).dejong := by
  simp [select_result, transition_loaded]

theorem range_result_dejong_same (s : Explorer) (x : ℚ)
    (h : range_value_after s.anim_scale.adjustment x = s.anim_scale.adjustment.value) :
    (range_result s x).dejong = s.dejong := by
  simp [range_result, h]

theorem range_result_dejong_loaded (s : Explorer) (x : ℚ) (p : ParameterVector)
    (hx : range_value_after s.anim_scale.adjustment x = x)
    (hne : s.anim_scale.adjustment.value ≠ x)
    (hv : (animation_iter_seek s.animation x).valid = true)
    (hp : animation_iter_load_dejong s.animation (animation_iter_seek s.animation x) =
      Except.ok p) :
    (range_result s x).dejong = p := by
  unfold range_result
  simp only [hx]
  rw [if_pos (Ne.symm hne)]
  exact seek_result_dejong _ p hv hp

/-- C5 as amended.  For a timeline with non-negative durations and an index
`i < count - 1` whose own duration is positive and whose curve evaluates to 0
at 0, the seek at the start time of keyframe `i` is valid, lands on segment
`i` with local progress 0, and the interpolated frame is exactly
`parameters[i]`; consequently, when such a keyframe is selected while
`seeking_animation` is false, the scale is in sync and the scale's value is
not already that start time, the live parameters after
`on_keyframe_view_cursor_changed` are `parameters[i]`. -/
theorem keyframe_start_resolves (now : GTimeVal) (fuel : Nat) (s : Explorer) (i : Nat)
    (hf : 1 ≤ fuel) (hdur : DurationsNonneg s.animation)
    (hi : i + 1 < s.animation.length) (hpos : 0 < (s.animation[i]).duration)
    (hcurve : spline_evaluate (s.animation[i]).spline 0 = 0) :
    animation_iter_seek s.animation (animation_keyframe_get_time s.animation i) =
      { valid := true, keyframe := i, localProgress := 0 } ∧
    animation_iter_load_dejong s.animation
      (animation_iter_seek s.animation (animation_keyframe_get_time s.animation i)) =
        Except.ok (s.animation[i]).parameters ∧
    (s.seeking_animation = false → InSync s → s.keyframe_view = some i →
      s.anim_scale.adjustment.value ≠ animation_keyframe_get_time s.animation i →
      ∃ s', on_keyframe_view_cursor_changed (dispatch now fuel) s = Except.ok s' ∧
        s'.dejong = (s.animation[i]).parameters) := by
  have hseek := animation_iter_seek_at_keyframe s.animation i hdur hi hpos
  have hload := resolve_at_keyframe s.animation i hdur hi hpos hcurve
  refine ⟨hseek, hload, ?_⟩
  intro hs hsync hc hne
  obtain ⟨n, rfl⟩ : ∃ n, fuel = n + 1 := ⟨fuel - 1, by omega⟩
  have hk : i < s.animation.length := by omega
  have hrow : s.animation[i]? = some s.animation[i] := List.getElem?_eq_getElem hk
  refine ⟨_, on_keyframe_view_cursor_changed_select now n s i _ hs hc hrow, ?_⟩
  rw [select_result_dejong]
  apply range_result_dejong_loaded
  · exact range_value_after_eq _ _ hsync.2.1
      (by rw [hsync.1]; exact animation_keyframe_get_time_nonneg s.animation hdur i)
      (inSync_time_le_upper s hsync hdur i hk)
  · exact hne
  · show (animation_iter_seek s.animation (animation_keyframe_get_time s.animation i)).valid = true
    rw [hseek]
  · exact hload

/-- Witness for C5 as amended: with the scale at 0, selecting row 1 of the
scenario loads that row's parameters. -/
theorem keyframe_start_resolves_witness :
    ∃ s', on_keyframe_view_cursor_changed (dispatch ⟨10, 0⟩ 1)
        { scenario_state with keyframe_view := some 1 } = Except.ok s' ∧
      s'.dejong = ⟨10, 10, 0, 0⟩ :=
  (keyframe_start_resolves ⟨10, 0⟩ 1 { scenario_state with keyframe_view := some 1 } 1
    (le_refl 1) scenario_durations (by decide)
    (by norm_num [scenario_state, scenario_timeline])
    (by norm_num [scenario_state, scenario_timeline, spline_evaluate, spline_template_linear,
      CLAMP])).2.2 rfl scenario_inSync rfl
    (by norm_num [scenario_state, scenario_timeline, gtk_adjustment_new,
      animation_keyframe_get_time])

/-- C5 fails as stated.  With a zero duration on keyframe 0 the seek at its
start time lands on segment 1 and yields `parameters[1]`; with a curve that
starts above 0 the frame at the start of segment 0 is a blend; and with the
scale already at the start time of the selected keyframe no signal is emitted,
so the live parameters stay what they were. -/
theorem keyframe_start_resolves_counterexample :
    (2 ≤ zero_duration_timeline.length ∧ 0 < zero_duration_timeline.length - 1 ∧
      animation_iter_load_dejong zero_duration_timeline
        (animation_iter_seek zero_duration_timeline
          (animation_keyframe_get_time zero_duration_timeline 0)) ≠
        Except.ok (zero_duration_timeline[0]).parameters) ∧
    (2 ≤ raised_curve_timeline.length ∧ 0 < raised_curve_timeline.length - 1 ∧
      animation_iter_load_dejong raised_curve_timeline
        (animation_iter_seek raised_curve_timeline
          (animation_keyframe_get_time raised_curve_timeline 0)) ≠
        Except.ok (raised_curve_timeline[0]).parameters) ∧
    (scenario_state.seeking_animation = false ∧ scenario_state.keyframe_view = some 0 ∧
      ∃ s', on_keyframe_view_cursor_changed (dispatch ⟨10, 0⟩ 1) scenario_state = Except.ok s' ∧
        s'.dejong = ⟨1, 2, 3, 4⟩ ∧ s'.dejong ≠ (scenario_state.animation[0]).parameters) := by
  have ne1 : (⟨2, 2, 2, 2⟩ : ParameterVector) ≠ ⟨1, 1, 1, 1⟩ := by
    intro h
    injection h with h _ _ _
    norm_num at h
  have ne2 : (⟨1, 2, 3, 4⟩ : ParameterVector) ≠ ⟨0, 0, 0, 0⟩ := by
    intro h
    injection h with h _ _ _
    norm_num at h
  refine ⟨⟨by decide, by decide, ?_⟩, ⟨by decide, by decide, ?_⟩, rfl, rfl, ?_⟩
  · rw [zero_duration_load]
    intro h
    injection h with h
    exact ne1 h
  · rw [raised_curve_load]
    intro h
    injection h with h
    exact ne1 h
  · have hd : (select_result scenario_state 0 scenario_state.animation[0]).dejong =
        ⟨1, 2, 3, 4⟩ := by
      rw [select_result_dejong]
      apply range_result_dejong_same
      norm_num [range_value_after, CLAMP, scenario_state, gtk_adjustment_new,
        animation_keyframe_get_time]
    refine ⟨_, on_keyframe_view_cursor_changed_select ⟨10, 0⟩ 0 scenario_state 0 _ rfl rfl rfl,
      hd, ?_⟩
    rw [hd]
    exact ne2

/-- C6 as amended.  The handler `on_keyframe_duration_change` checks nothing
about the sign of the value and reports no error: with a row `k` selected and
`allow_transition_changes` true it stores the spin button's value, whatever it
is, in the duration of row `k`, leaves the other rows and the other columns of
row `k` alone, and brings the scale in sync with the new length; only when
`allow_transition_changes` is false does it leave the state as it was. -/
theorem duration_change_stores (s : Explorer) (k : Nat)
    (hc : s.keyframe_view = some k) (hk : k < s.animation.length) :
    (s.allow_transition_changes = true →
      ∃ s', on_keyframe_duration_change s = Except.ok s' ∧
        s'.animation = s.animation.set k
          { s.animation[k] with duration := s.keyframe_duration.adjustment.value } ∧
        (s'.animation[k]?).map Keyframe.duration = some s.keyframe_duration.adjustment.value ∧
        InSync s') ∧
    (s.allow_transition_changes = false → on_keyframe_duration_change s = Except.ok s) := by
  constructor
  · intro ha
    have hrow : s.animation[k]? = some s.animation[k] := List.getElem?_eq_getElem hk
    simp only [on_keyframe_duration_change, ha, explorer_get_current_keyframe_ok s k hc hk,
      bind, Except.bind, pure, Except.pure, Bool.not_true, Bool.false_eq_true, if_false]
    refine ⟨_, rfl, ?_, ?_, explorer_update_animation_length_inSync _⟩
    · simp [explorer_update_animation_length, list_store_update, hrow]
    · simp [explorer_update_animation_length, list_store_update, hrow, hk]
  · intro ha
    simp [on_keyframe_duration_change, ha]

/-- Witness for C6 as amended, on the scenario state: the spin button's value
2 is stored in row 0. -/
theorem duration_change_stores_witness :
    ∃ s', on_keyframe_duration_change scenario_state = Except.ok s' ∧
      s'.animation = scenario_state.animation.set 0
        { scenario_state.animation[0] with
          duration := scenario_state.keyframe_duration.adjustment.value } ∧
      (s'.animation[0]?).map Keyframe.duration =
        some scenario_state.keyframe_duration.adjustment.value ∧
      InSync s' :=
  (duration_change_stores scenario_state 0 rfl (by decide)).1 rfl

/-- C6 fails as stated.  With `-1` in the spin button and row 0 selected, the
handler stores `-1` as the duration of row 0, and the length of the timeline
drops from 3 to 0. -/
theorem duration_change_counterexample :
    negative_duration_state.keyframe_duration.adjustment.value = -1 ∧
    animation_get_length negative_duration_state.animation = 3 ∧
    ∃ s', on_keyframe_duration_change negative_duration_state = Except.ok s' ∧
      s'.animation.map Keyframe.duration = [-1, 1, 1] ∧
      animation_get_length s'.animation = 0 ∧
      animation_get_length s'.animation ≠ animation_get_length negative_duration_state.animation := by
  refine ⟨rfl, scenario_length, ?_⟩
  have hk : explorer_get_current_keyframe negative_duration_state = Except.ok 0 :=
    explorer_get_current_keyframe_ok _ 0 rfl (by decide)
  simp only [on_keyframe_duration_change, hk, bind, Except.bind, pure, Except.pure]
  refine ⟨_, rfl, ?_, ?_, ?_⟩ <;>
    norm_num [explorer_update_animation_length, list_store_update, negative_duration_state,
      scenario_state, scenario_timeline, gtk_adjustment_new, animation_get_length]

theorem range_value_after_lt (adj : GtkAdjustment) (x : ℚ) (hps : adj.page_size = 0)
    (hb : adj.lower ≤ adj.upper) (hx : x < adj.upper) :
    range_value_after adj x = max adj.lower x := by
  unfold range_value_after CLAMP
  rw [hps, sub_zero]
  have a1 : ¬ x > adj.upper := not_lt.mpr (le_of_lt hx)
  by_cases a2 : x < adj.lower
  · have a3 : ¬ adj.lower > adj.upper := not_lt.mpr hb
    simp only [a1, a2, a3, if_true, if_false, lt_irrefl]
    exact (max_eq_left (le_of_lt a2)).symm
  · simp only [a1, a2, if_false]
    exact (max_eq_right (not_lt.mp a2)).symm

theorem range_value_after_lower (adj : GtkAdjustment) (hps : adj.page_size = 0)
    (hb : adj.lower ≤ adj.upper) : range_value_after adj adj.lower = adj.lower :=
  range_value_after_eq adj adj.lower hps (le_refl _) hb

theorem range_value_after_upper (adj : GtkAdjustment) (hps : adj.page_size = 0)
    (hb : adj.lower ≤ adj.upper) : range_value_after adj adj.upper = adj.upper :=
  range_value_after_eq adj adj.upper hps hb (le_refl _)

/-- C7 as amended.  Playback tick, for every state whose scale has
`lower ≤ upper` and page size 0 and whose `playing_animation` mirrors the play
button, with `v` the scale's value and `diff` the elapsed time: if
`playing_animation` is false nothing changes; if playing and
`v + diff < upper` the scale ends at `v + diff`, or at `lower` when
`v + diff` is below `lower`, and playback continues; if playing and
`v + diff ≥ upper` then with looping enabled the scale ends at `lower` and
playback continues, and with looping disabled the scale ends at `upper` and
`playing_animation` becomes false.  In every playing case
`last_anim_frame_time` becomes `now`. -/
theorem playback_tick (now : GTimeVal) (fuel : Nat) (s : Explorer) (hf : 3 ≤ fuel)
    (hb : s.anim_scale.adjustment.lower ≤ s.anim_scale.adjustment.upper)
    (hps : s.anim_scale.adjustment.page_size = 0)
    (hcoh : s.playing_animation = s.anim_play_button.active) :
    ∃ s', explorer_update_animation (dispatch now fuel) now s = Except.ok s' ∧
      (s.playing_animation = false → s' = s) ∧
      (s.playing_animation = true →
        s'.last_anim_frame_time = now ∧
        (s.anim_scale.adjustment.value + frame_time_diff now s.last_anim_frame_time <
            s.anim_scale.adjustment.upper →
          s'.anim_scale.adjustment.value = max s.anim_scale.adjustment.lower
            (s.anim_scale.adjustment.value + frame_time_diff now s.last_anim_frame_time) ∧
          s'.playing_animation = true) ∧
        (s.anim_scale.adjustment.value + frame_time_diff now s.last_anim_frame_time ≥
            s.anim_scale.adjustment.upper →
          (s.loop_animation = true →
            s'.anim_scale.adjustment.value = s.anim_scale.adjustment.lower ∧
            s'.playing_animation = true) ∧
          (s.loop_animation = false →
            s'.anim_scale.adjustment.value = s.anim_scale.adjustment.upper ∧
            s'.playing_animation = false))) := by
  obtain ⟨n, rfl⟩ : ∃ n, fuel = n + 3 := ⟨fuel - 3, by omega⟩
  refine ⟨_, explorer_update_animation_eq now n s, ?_, ?_⟩
  · intro hp
    simp [tick_result, hp]
  · intro hp
    refine ⟨?_, ?_, ?_⟩
    · unfold tick_result
      simp only [hp, if_true]
      split_ifs <;> simp
    · intro hlt
      simp only [tick_result, hp, if_true, hlt, range_result_anim_scale,
        range_result_playing_animation]
      exact ⟨range_value_after_lt _ _ hps hb hlt, trivial⟩
    · intro hge
      have hnl : ¬ (s.anim_scale.adjustment.value + frame_time_diff now s.last_anim_frame_time <
          s.anim_scale.adjustment.upper) := not_lt.mpr hge
      constructor
      · intro hl
        simp only [tick_result, hp, if_true, hnl, if_false, hl, range_result_anim_scale,
          range_result_playing_animation]
        exact ⟨range_value_after_lower _ hps hb, trivial⟩
      · intro hl
        simp only [tick_result, hp, if_true, hnl, if_false, hl, Bool.false_eq_true,
          play_switched_off_anim_scale, range_result_anim_scale]
        refine ⟨range_value_after_upper _ hps hb, play_switched_off_playing _ ?_⟩
        simp [← hcoh, hp]

/-- Witness for C7 as amended: a tick half a second after the last frame on
the playing scenario state. -/
theorem playback_tick_witness :
    ∃ s', explorer_update_animation (dispatch ⟨10, 500000⟩ 3) ⟨10, 500000⟩ playing_state =
        Except.ok s' ∧
      s'.last_anim_frame_time = ⟨10, 500000⟩ ∧
      s'.anim_scale.adjustment.value = max 0 (0 + frame_time_diff ⟨10, 500000⟩ ⟨10, 0⟩) ∧
      s'.playing_animation = true := by
  obtain ⟨s', h, _, h2⟩ := playback_tick ⟨10, 500000⟩ 3 playing_state (le_refl 3)
    (by norm_num [playing_state, scenario_state, gtk_adjustment_new]) rfl rfl
  obtain ⟨h3, h4, _⟩ := h2 rfl
  have h5 := h4 (by norm_num [playing_state, scenario_state, gtk_adjustment_new,
    frame_time_diff])
  exact ⟨s', h, h3, h5.1, h5.2⟩

/-- C7 fails as stated.  On the playing scenario state, whose last frame time
is 10 s, a tick at 9 s has `diff = -1`; then `v + diff = -1 < upper`, yet the
scale's value after the tick is 0, not `-1`. -/
theorem playback_tick_counterexample :
    playing_state.playing_animation = true ∧
    playing_state.anim_scale.adjustment.value +
      frame_time_diff ⟨9, 0⟩ playing_state.last_anim_frame_time = -1 ∧
    (-1 : ℚ) < playing_state.anim_scale.adjustment.upper ∧
    ∃ s', explorer_update_animation (dispatch ⟨9, 0⟩ 3) ⟨9, 0⟩ playing_state = Except.ok s' ∧
      s'.anim_scale.adjustment.value = 0 ∧
      s'.anim_scale.adjustment.value ≠ playing_state.anim_scale.adjustment.value +
        frame_time_diff ⟨9, 0⟩ playing_state.last_anim_frame_time := by
  have hd : playing_state.anim_scale.adjustment.value +
      frame_time_diff ⟨9, 0⟩ playing_state.last_anim_frame_time = -1 := by
    norm_num [playing_state, scenario_state, gtk_adjustment_new, frame_time_diff]
  have hu : (-1 : ℚ) < playing_state.anim_scale.adjustment.upper := by
    norm_num [playing_state, scenario_state, gtk_adjustment_new]
  have hv : (tick_result ⟨9, 0⟩ playing_state).anim_scale.adjustment.value = 0 := by
    have hp : playing_state.playing_animation = true := rfl
    simp only [tick_result, hp, if_true, hd, hu, range_result_anim_scale]
    norm_num [range_value_after, CLAMP, playing_state, scenario_state, gtk_adjustment_new]
  refine ⟨rfl, hd, hu, _, explorer_update_animation_eq ⟨9, 0⟩ 0 playing_state, hv, ?_⟩
  rw [hv, hd]
  norm_num

/-- C8.  Play toggle: `on_anim_play_toggled` returns; afterwards the button's
state is what it was on entry and `playing_animation` equals it; when the
button is active and `v ≥ upper - 0.1` the scale's value is 0 afterwards (0
lies within the scale's bounds `lower ≤ 0 ≤ upper`, page size 0) and
`last_anim_frame_time` is `now`; when the button is active and
`v < upper - 0.1`, or the button is inactive, the scale's value is
unchanged. -/
theorem play_toggle (now : GTimeVal) (fuel : Nat) (s : Explorer) (hf : 3 ≤ fuel) :
    ∃ s', on_anim_play_toggled (dispatch now fuel) now s = Except.ok s' ∧
      s'.anim_play_button.active = s.anim_play_button.active ∧
      s'.playing_animation = s'.anim_play_button.active ∧
      (s.anim_play_button.active = true → s'.last_anim_frame_time = now) ∧
      (s.anim_play_button.active = true →
        s.anim_scale.adjustment.value ≥ s.anim_scale.adjustment.upper - 1 / 10 →
        s.anim_scale.adjustment.lower ≤ 0 → 0 ≤ s.anim_scale.adjustment.upper →
        s.anim_scale.adjustment.page_size = 0 →
        s'.anim_scale.adjustment.value = 0) ∧
      (s.anim_play_button.active = true →
        s.anim_scale.adjustment.value < s.anim_scale.adjustment.upper - 1 / 10 →
        s'.anim_scale.adjustment.value = s.anim_scale.adjustment.value) ∧
      (s.anim_play_button.active = false →
        s'.anim_scale.adjustment.value = s.anim_scale.adjustment.value) := by
  obtain ⟨n, rfl⟩ : ∃ n, fuel = n + 3 := ⟨fuel - 3, by omega⟩
  refine ⟨_, on_anim_play_toggled_eq now n s, ?_⟩
  unfold play_toggled_result
  cases ha : s.anim_play_button.active
  · simp [ha]
  · by_cases hv : s.anim_scale.adjustment.value ≥ s.anim_scale.adjustment.upper - 1 / 10
    · simp only [if_true, hv, range_result_anim_play_button, range_result_anim_scale, ha,
        true_and, forall_true_left, Bool.true_eq_false, false_implies, and_true]
      refine ⟨fun h0 h1 hps => range_value_after_eq _ _ hps h0 h1, fun hlt => ?_⟩
      exact absurd hlt (not_lt.mpr hv)
    · simp only [if_true, hv, if_false, ha, true_and, forall_true_left, Bool.true_eq_false,
        false_implies, and_true, implies_true]

/-- Witness for C8: pressing play with the scale at the end of the scenario
timeline rewinds the scale to 0 and starts playback. -/
theorem play_toggle_witness :
    ∃ s', on_anim_play_toggled (dispatch ⟨10, 0⟩ 3) ⟨10, 0⟩ pressed_at_end_state =
        Except.ok s' ∧
      s'.playing_animation = true ∧ s'.anim_scale.adjustment.value = 0 := by
  obtain ⟨s', h, h1, h2, _, h4, _⟩ := play_toggle ⟨10, 0⟩ 3 pressed_at_end_state (le_refl 3)
  refine ⟨s', h, ?_, ?_⟩
  · rw [h2, h1]
    rfl
  · exact h4 rfl (by norm_num [pressed_at_end_state, gtk_adjustment_new])
      (by norm_num [pressed_at_end_state, gtk_adjustment_new])
      (by norm_num [pressed_at_end_state, gtk_adjustment_new]) rfl

theorem range_result_seeking (s : Explorer) (x : ℚ)
    (hx : range_value_after s.anim_scale.adjustment x = x)
    (hv : (animation_iter_seek s.animation x).valid = true)
    (hsel : s.selecting_keyframe = false) (hseek : s.seeking_animation = false) :
    (range_result s x).seeking_animation = false := by
  unfold range_result
  simp only [hx]
  by_cases h : x ≠ s.anim_scale.adjustment.value
  · rw [if_pos h]
    refine (seek_result_seeking _ ?_ ?_).1
    · exact hv
    · exact hsel
  · rw [if_neg h]
    exact hseek

/-- C9.  A seek never interrupts playback or re-seeks.  Whenever
`on_anim_scale_changed` finds a valid cursor while `selecting_keyframe` is
false it moves the keyframe view's cursor to the active segment's keyframe and
returns with the scale, the play button and `playing_animation` as they were
and `seeking_animation` false.  Therefore, for a tick between events
(`selecting_keyframe` and `seeking_animation` false, scale bounds `lower ≤ 0`
and page size 0) while playing, with `v + diff < upper` and a valid seek at
`v + diff`: after the tick `playing_animation` is still true, the scale's
value is `v + diff`, and `seeking_animation` is false. -/
theorem seek_keeps_playing (now : GTimeVal) (fuel : Nat) (s : Explorer) (hf : 3 ≤ fuel) :
    ((animation_iter_seek s.animation s.anim_scale.adjustment.value).valid = true →
      s.selecting_keyframe = false →
      ∃ s', on_anim_scale_changed (dispatch now fuel) s = Except.ok s' ∧
        s'.keyframe_view =
          some (animation_iter_seek s.animation s.anim_scale.adjustment.value).keyframe ∧
        s'.anim_scale = s.anim_scale ∧
        s'.anim_play_button = s.anim_play_button ∧
        s'.playing_animation = s.playing_animation ∧
        s'.seeking_animation = false) ∧
    (s.playing_animation = true → s.selecting_keyframe = false →
      s.seeking_animation = false →
      s.anim_scale.adjustment.lower ≤ 0 → s.anim_scale.adjustment.page_size = 0 →
      s.anim_scale.adjustment.value + frame_time_diff now s.last_anim_frame_time <
        s.anim_scale.adjustment.upper →
      (animation_iter_seek s.animation
        (s.anim_scale.adjustment.value + frame_time_diff now s.last_anim_frame_time)).valid
          = true →
      ∃ s', explorer_update_animation (dispatch now fuel) now s = Except.ok s' ∧
        s'.playing_animation = true ∧
        s'.anim_scale.adjustment.value =
          s.anim_scale.adjustment.value + frame_time_diff now s.last_anim_frame_time ∧
        s'.seeking_animation = false) := by
  obtain ⟨n, rfl⟩ : ∃ n, fuel = n + 3 := ⟨fuel - 3, by omega⟩
  constructor
  · intro hv hsel
    obtain ⟨h1, _, h3⟩ := seek_result_seeking s hv hsel
    exact ⟨_, on_anim_scale_changed_eq now (n + 1) s, h3, seek_result_anim_scale s,
      seek_result_anim_play_button s, seek_result_playing_animation s, h1⟩
  · intro hp hsel hseek hlow hps hlt hv
    have h0 := ((animation_iter_seek_valid_iff _ _).mp hv).1
    have hx : range_value_after s.anim_scale.adjustment
        (s.anim_scale.adjustment.value + frame_time_diff now s.last_anim_frame_time) =
        s.anim_scale.adjustment.value + frame_time_diff now s.last_anim_frame_time :=
      range_value_after_eq _ _ hps (le_trans hlow h0) (le_of_lt hlt)
    refine ⟨_, explorer_update_animation_eq now n s, ?_, ?_, ?_⟩
    · simp [tick_result, hp, hlt]
    · simp only [tick_result, hp, if_true, hlt, range_result_anim_scale]
      exact hx
    · simp only [tick_result, hp, if_true, hlt]
      exact range_result_seeking _ _ hx hv hsel hseek

/-- Witness for C9: a tick half a second after the last frame on the playing
scenario state. -/
theorem seek_keeps_playing_witness :
    ∃ s', explorer_update_animation (dispatch ⟨10, 500000⟩ 3) ⟨10, 500000⟩ playing_state =
        Except.ok s' ∧
      s'.playing_animation = true ∧
      s'.anim_scale.adjustment.value =
        playing_state.anim_scale.adjustment.value +
          frame_time_diff ⟨10, 500000⟩ playing_state.last_anim_frame_time ∧
      s'.seeking_animation = false := by
  have hd : playing_state.anim_scale.adjustment.value +
      frame_time_diff ⟨10, 500000⟩ playing_state.last_anim_frame_time = 1 / 2 := by
    norm_num [playing_state, scenario_state, gtk_adjustment_new, frame_time_diff]
  refine (seek_keeps_playing ⟨10, 500000⟩ 3 playing_state (le_refl 3)).2 rfl rfl rfl
    (by norm_num [playing_state, scenario_state, gtk_adjustment_new]) rfl ?_ ?_
  · rw [hd]
    norm_num [playing_state, scenario_state, gtk_adjustment_new]
  · rw [hd]
    exact (animation_iter_seek_valid_iff scenario_timeline (1 / 2)).mpr
      ⟨by norm_num, by rw [scenario_length]; norm_num⟩

theorem inSync_congr (s s' : Explorer)
    (h1 : animation_get_length s'.animation = animation_get_length s.animation)
    (h2 : s'.anim_scale.adjustment.lower = s.anim_scale.adjustment.lower)
    (h3 : s'.anim_scale.adjustment.upper = s.anim_scale.adjustment.upper)
    (h4 : s'.anim_scale.adjustment.page_size = s.anim_scale.adjustment.page_size)
    (h5 : s'.anim_scale.sensitive = s.anim_scale.sensitive)
    (h6 : s'.anim_play_button.sensitive = s.anim_play_button.sensitive)
    (h : InSync s) : InSync s' := by
  unfold InSync at h ⊢
  rw [h1, h2, h3, h4, h5, h6]
  exact h

theorem animation_get_length_map (t t' : Timeline)
    (h : t'.map Keyframe.duration = t.map Keyframe.duration) :
    animation_get_length t' = animation_get_length t := by
  unfold animation_get_length
  rw [List.map_dropLast, List.map_dropLast, h]

theorem list_store_update_durations (t : Timeline) (k : Nat) (f : Keyframe → Keyframe)
    (hf : ∀ row, (f row).duration = row.duration) :
    (list_store_update t k f).map Keyframe.duration = t.map Keyframe.duration := by
  unfold list_store_update
  cases h : t[k]? with
  | none => rfl
  | some row =>
    simp only []
    apply List.ext_getElem?
    intro i
    by_cases hik : k = i
    · subst hik
      obtain ⟨hk, hrow⟩ := List.getElem?_eq_some.mp h
      simp [List.getElem?_set, h, hf, hk, hrow]
    · simp [List.getElem?_set, hik]

theorem explorer_update_animation_length_flags (s : Explorer) :
    (explorer_update_animation_length s).seeking_animation = s.seeking_animation ∧
    (explorer_update_animation_length s).selecting_keyframe = s.selecting_keyframe ∧
    (explorer_update_animation_length s).playing_animation = s.playing_animation ∧
    (explorer_update_animation_length s).anim_play_button.active = s.anim_play_button.active := by
  simp [explorer_update_animation_length]

theorem atRest_update_animation_length (s : Explorer)
    (h1 : s.seeking_animation = false) (h2 : s.selecting_keyframe = false)
    (h3 : s.playing_animation = s.anim_play_button.active) :
    AtRest (explorer_update_animation_length s) := by
  obtain ⟨f1, f2, f3, f4⟩ := explorer_update_animation_length_flags s
  exact ⟨by rw [f1, h1], by rw [f2, h2], by rw [f3, f4, h3],
    explorer_update_animation_length_inSync s⟩

theorem seek_result_seeking_down (s : Explorer) (h1 : s.seeking_animation = false) :
    (seek_result s).seeking_animation = false := by
  cases hv : (animation_iter_seek s.animation s.anim_scale.adjustment.value).valid
  · rw [seek_result_invalid s hv]
    exact h1
  · cases hsel : s.selecting_keyframe
    · exact (seek_result_seeking s hv hsel).1
    · rw [(seek_result_selecting s hsel).1]
      exact h1

theorem inSync_seek_result (s : Explorer) (h : InSync s) : InSync (seek_result s) :=
  inSync_congr s _ (by rw [seek_result_animation]) (by rw [seek_result_anim_scale])
    (by rw [seek_result_anim_scale]) (by rw [seek_result_anim_scale])
    (by rw [seek_result_anim_scale]) (by rw [seek_result_anim_play_button]) h

theorem atRest_seek_result (s : Explorer) (h : AtRest s) : AtRest (seek_result s) := by
  obtain ⟨h1, h2, h3, h4⟩ := h
  refine ⟨seek_result_seeking_down s h1, ?_, ?_, inSync_seek_result s h4⟩
  · rw [seek_result_selecting_keyframe]
    exact h2
  · rw [seek_result_playing_animation, seek_result_anim_play_button]
    exact h3

theorem range_result_seeking_down (s : Explorer) (x : ℚ) (h1 : s.seeking_animation = false) :
    (range_result s x).seeking_animation = false := by
  unfold range_result
  by_cases h : range_value_after s.anim_scale.adjustment x ≠ s.anim_scale.adjustment.value
  · dsimp only
    rw [if_pos h]
    exact seek_result_seeking_down _ h1
  · simp [h, h1]

theorem inSync_range_result (s : Explorer) (x : ℚ) (h : InSync s) :
    InSync (range_result s x) :=
  inSync_congr s _ (by rw [range_result_animation]) (by rw [range_result_anim_scale])
    (by rw [range_result_anim_scale]) (by rw [range_result_anim_scale])
    (by rw [range_result_anim_scale]) (by rw [range_result_anim_play_button]) h

theorem atRest_range_result (s : Explorer) (x : ℚ) (h : AtRest s) :
    AtRest (range_result s x) := by
  obtain ⟨h1, h2, h3, h4⟩ := h
  refine ⟨range_result_seeking_down s x h1, ?_, ?_, inSync_range_result s x h4⟩
  · rw [range_result_selecting_keyframe]
    exact h2
  · rw [range_result_playing_animation, range_result_anim_play_button]
    exact h3

theorem atRest_play_switched_off (s : Explorer) (h : AtRest s) :
    AtRest (play_switched_off s) := by
  obtain ⟨h1, h2, h3, h4⟩ := h
  refine ⟨by simp [h1], by simp [h2], ?_, ?_⟩
  · rw [play_switched_off_playing s h3, play_switched_off_active]
  · refine inSync_congr s _ (by simp) (by simp) (by simp) (by simp) (by simp) ?_ h4
    unfold play_switched_off
    split_ifs <;> rfl

theorem atRest_select_result (s : Explorer) (k : Nat) (row : Keyframe) (h : AtRest s) :
    AtRest (select_result s k row) := by
  obtain ⟨h1, h2, h3, h4⟩ := h
  have hcoh : (range_result
      { s with keyframe_delete_button := true, keyframe_replace_button := true,
               anim_transition_box := true, selecting_keyframe := true }
      (animation_keyframe_get_time s.animation k)).playing_animation =
      (range_result
      { s with keyframe_delete_button := true, keyframe_replace_button := true,
               anim_transition_box := true, selecting_keyframe := true }
      (animation_keyframe_get_time s.animation k)).anim_play_button.active := by
    rw [range_result_playing_animation, range_result_anim_play_button]
    exact h3
  have hoff := play_switched_off_playing _ hcoh
  have hsens : ∀ u : Explorer,
      (play_switched_off u).anim_play_button.sensitive = u.anim_play_button.sensitive := by
    intro u
    unfold play_switched_off
    split_ifs <;> rfl
  refine ⟨?_, ?_, ?_, ?_⟩
  · simp only [select_result, transition_loaded, play_switched_off_seeking_animation]
    exact range_result_seeking_down _ _ h1
  · simp [select_result, transition_loaded]
  · simp only [select_result, transition_loaded]
    rw [hoff, play_switched_off_active]
  · refine inSync_congr s _ ?_ ?_ ?_ ?_ ?_ ?_ h4
    · simp [select_result, transition_loaded]
    · simp [select_result, transition_loaded]
    · simp [select_result, transition_loaded]
    · simp [select_result, transition_loaded]
    · simp [select_result, transition_loaded]
    · simp only [select_result, transition_loaded, hsens, range_result_anim_play_button]

theorem atRest_tick_result (now : GTimeVal) (s : Explorer) (h : AtRest s) :
    AtRest (tick_result now s) := by
  have h' : AtRest { s with last_anim_frame_time := now } := h
  dsimp only [tick_result]
  split_ifs
  · exact atRest_range_result _ _ h'
  · exact atRest_range_result _ _ h'
  · exact atRest_play_switched_off _ (atRest_range_result _ _ h')
  · exact h

theorem atRest_play_toggled_result (now : GTimeVal) (s : Explorer) (active : Bool)
    (h : AtRest s) :
    AtRest (play_toggled_result now
      { s with anim_play_button := { s.anim_play_button with active := active } }) := by
  obtain ⟨h1, h2, _, h4⟩ := h
  have h4' : InSync { s with anim_play_button := { s.anim_play_button with active := active } } :=
    h4
  dsimp only [play_toggled_result]
  cases active
  · exact ⟨h1, h2, rfl, h4⟩
  · simp only [if_true]
    split_ifs
    · refine ⟨range_result_seeking_down _ _ h1, ?_, ?_, ?_⟩
      · simp [h2]
      · simp
      · exact inSync_range_result _ _ h4'
    · exact ⟨h1, h2, rfl, h4⟩

/-- The conditions assumed of a state between two events are kept by every
callback of the editor: the two flags are down, `playing_animation` mirrors
the play button and the scale is in sync with the timeline.  The play toggle
is entered right after the button flipped, so it restores the mirror rather
than assuming it. -/
theorem atRest_preserved (now : GTimeVal) (fuel : Nat) (s : Explorer) (hf : 3 ≤ fuel)
    (h : AtRest s) (response_ok : Bool) (file : Option Timeline) (active : Bool) :
    AtRest (on_keyframe_add s) ∧
    (∀ s', on_keyframe_replace s = Except.ok s' → AtRest s') ∧
    (∀ s', on_keyframe_delete s = Except.ok s' → AtRest s') ∧
    (∀ s', on_keyframe_duration_change s = Except.ok s' → AtRest s') ∧
    (∀ s', on_anim_curve_changed s = Except.ok s' → AtRest s') ∧
    (∀ s', on_keyframe_view_cursor_changed (dispatch now fuel) s = Except.ok s' → AtRest s') ∧
    (∀ s', on_anim_scale_changed (dispatch now fuel) s = Except.ok s' → AtRest s') ∧
    (∀ s', explorer_update_animation (dispatch now fuel) now s = Except.ok s' → AtRest s') ∧
    (∀ s', on_anim_play_toggled (dispatch now fuel) now
        { s with anim_play_button := { s.anim_play_button with active := active } } =
          Except.ok s' → AtRest s') ∧
    AtRest (on_anim_new s) ∧
    AtRest (on_anim_open response_ok file s) := by
  obtain ⟨n, rfl⟩ : ∃ n, fuel = n + 3 := ⟨fuel - 3, by omega⟩
  have hh := h
  obtain ⟨h1, h2, h3, h4⟩ := h
  refine ⟨atRest_update_animation_length _ h1 h2 h3, ?_, ?_, ?_, ?_, ?_, ?_, ?_, ?_,
    atRest_update_animation_length _ h1 h2 h3, ?_⟩
  · intro s' hs'
    cases hk : explorer_get_current_keyframe s with
    | error e => simp [on_keyframe_replace, hk, bind, Except.bind] at hs'
    | ok k =>
      simp only [on_keyframe_replace, hk, bind, Except.bind, pure, Except.pure,
        Except.ok.injEq] at hs'
      subst hs'
      refine ⟨h1, h2, h3, inSync_congr s _ ?_ rfl rfl rfl rfl rfl h4⟩
      exact animation_get_length_map _ _
        (list_store_update_durations _ _ _ (fun _ => rfl))
  · intro s' hs'
    cases hk : explorer_get_current_keyframe s with
    | error e => simp [on_keyframe_delete, hk, bind, Except.bind] at hs'
    | ok k =>
      simp only [on_keyframe_delete, hk, bind, Except.bind, pure, Except.pure,
        Except.ok.injEq] at hs'
      subst hs'
      exact atRest_update_animation_length _ h1 h2 h3
  · intro s' hs'
    cases ha : s.allow_transition_changes
    · simp only [on_keyframe_duration_change, ha, Bool.not_false, if_true,
        Except.ok.injEq] at hs'
      subst hs'
      exact hh
    · cases hk : explorer_get_current_keyframe s with
      | error e => simp [on_keyframe_duration_change, ha, hk, bind, Except.bind] at hs'
      | ok k =>
        simp only [on_keyframe_duration_change, ha, hk, bind, Except.bind, pure, Except.pure,
          Except.ok.injEq, Bool.not_true, Bool.false_eq_true, if_false] at hs'
        subst hs'
        exact atRest_update_animation_length _ h1 h2 h3
  · intro s' hs'
    cases ha : s.allow_transition_changes
    · simp only [on_anim_curve_changed, ha, Bool.not_false, if_true, Except.ok.injEq] at hs'
      subst hs'
      exact hh
    · cases hk : explorer_get_current_keyframe s with
      | error e => simp [on_anim_curve_changed, ha, hk, bind, Except.bind] at hs'
      | ok k =>
        simp only [on_anim_curve_changed, ha, hk, bind, Except.bind, pure, Except.pure,
          Except.ok.injEq, Bool.not_true, Bool.false_eq_true, if_false] at hs'
        subst hs'
        refine ⟨h1, h2, h3, inSync_congr s _ ?_ rfl rfl rfl rfl rfl h4⟩
        exact animation_get_length_map _ _
          (list_store_update_durations _ _ _ (fun _ => rfl))
  · intro s' hs'
    cases hc : s.keyframe_view with
    | none =>
      simp [on_keyframe_view_cursor_changed, explorer_get_current_keyframe, hc, bind,
        Except.bind] at hs'
    | some k =>
      by_cases hk : k < s.animation.length
      · rw [on_keyframe_view_cursor_changed_select now (n + 2) s k _ h1 hc
          (List.getElem?_eq_getElem hk)] at hs'
        injection hs' with hs'
        subst hs'
        exact atRest_select_result s k _ hh
      · simp [on_keyframe_view_cursor_changed, explorer_get_current_keyframe, hc, hk, bind,
          Except.bind] at hs'
  · intro s' hs'
    rw [on_anim_scale_changed_eq now (n + 1) s] at hs'
    injection hs' with hs'
    subst hs'
    exact atRest_seek_result s hh
  · intro s' hs'
    rw [explorer_update_animation_eq now n s] at hs'
    injection hs' with hs'
    subst hs'
    exact atRest_tick_result now s hh
  · intro s' hs'
    rw [on_anim_play_toggled_eq now n _] at hs'
    injection hs' with hs'
    subst hs'
    exact atRest_play_toggled_result now s active hh
  · cases response_ok
    · exact hh
    · exact atRest_update_animation_length _ h1 h2 h3

theorem durationsNonneg_list_store_update (t : Timeline) (k : Nat) (f : Keyframe → Keyframe)
    (hf : ∀ row, 0 ≤ row.duration → 0 ≤ (f row).duration) (h : DurationsNonneg t) :
    DurationsNonneg (list_store_update t k f) := by
  unfold list_store_update
  cases hrow : t[k]? with
  | none => exact h
  | some row =>
    intro r hr
    obtain ⟨hk, hrk⟩ := List.getElem?_eq_some.mp hrow
    rcases List.mem_or_eq_of_mem_set hr with h1 | h1
    · exact h r h1
    · rw [h1]
      exact hf row (h row (hrk ▸ List.getElem_mem hk))

theorem explorer_update_animation_length_animation (s : Explorer) :
    (explorer_update_animation_length s).animation = s.animation := rfl

/-- Non-negative durations are kept by every callback of the editor, as long
as the duration spin button holds a non-negative value and an opened file has
non-negative durations. -/
theorem durationsNonneg_preserved (now : GTimeVal) (fuel : Nat) (s : Explorer) (hf : 3 ≤ fuel)
    (h : DurationsNonneg s.animation) (response_ok : Bool) (file : Option Timeline)
    (hspin : 0 ≤ s.keyframe_duration.adjustment.value)
    (hfile : ∀ loaded, file = some loaded → DurationsNonneg loaded) :
    DurationsNonneg (on_keyframe_add s).animation ∧
    (∀ s', on_keyframe_replace s = Except.ok s' → DurationsNonneg s'.animation) ∧
    (∀ s', on_keyframe_delete s = Except.ok s' → DurationsNonneg s'.animation) ∧
    (∀ s', on_keyframe_duration_change s = Except.ok s' → DurationsNonneg s'.animation) ∧
    (∀ s', on_anim_curve_changed s = Except.ok s' → DurationsNonneg s'.animation) ∧
    (∀ s', on_keyframe_view_cursor_changed (dispatch now fuel) s = Except.ok s' →
      DurationsNonneg s'.animation) ∧
    (∀ s', on_anim_scale_changed (dispatch now fuel) s = Except.ok s' →
      DurationsNonneg s'.animation) ∧
    (∀ s', explorer_update_animation (dispatch now fuel) now s = Except.ok s' →
      DurationsNonneg s'.animation) ∧
    (∀ s', on_anim_play_toggled (dispatch now fuel) now s = Except.ok s' →
      DurationsNonneg s'.animation) ∧
    DurationsNonneg (on_anim_new s).animation ∧
    DurationsNonneg (on_anim_open response_ok file s).animation := by
  obtain ⟨n, rfl⟩ : ∃ n, fuel = n + 3 := ⟨fuel - 3, by omega⟩
  refine ⟨?_, ?_, ?_, ?_, ?_, ?_, ?_, ?_, ?_, ?_, ?_⟩
  · intro row hrow
    simp only [on_keyframe_add, explorer_update_animation_length_animation,
      animation_keyframe_append, List.mem_append, List.mem_singleton] at hrow
    rcases hrow with h1 | h1
    · exact h row h1
    · rw [h1]
      norm_num
  · intro s' hs'
    cases hk : explorer_get_current_keyframe s with
    | error e => simp [on_keyframe_replace, hk, bind, Except.bind] at hs'
    | ok k =>
      simp only [on_keyframe_replace, hk, bind, Except.bind, pure, Except.pure,
        Except.ok.injEq] at hs'
      subst hs'
      exact durationsNonneg_list_store_update _ _ _ (fun _ hr => hr) h
  · intro s' hs'
    cases hk : explorer_get_current_keyframe s with
    | error e => simp [on_keyframe_delete, hk, bind, Except.bind] at hs'
    | ok k =>
      simp only [on_keyframe_delete, hk, bind, Except.bind, pure, Except.pure,
        Except.ok.injEq] at hs'
      subst hs'
      intro row hrow
      rw [explorer_update_animation_length_animation] at hrow
      exact h row ((List.eraseIdx_sublist _ _).subset hrow)
  · intro s' hs'
    cases ha : s.allow_transition_changes
    · simp only [on_keyframe_duration_change, ha, Bool.not_false, if_true,
        Except.ok.injEq] at hs'
      subst hs'
      exact h
    · cases hk : explorer_get_current_keyframe s with
      | error e => simp [on_keyframe_duration_change, ha, hk, bind, Except.bind] at hs'
      | ok k =>
        simp only [on_keyframe_duration_change, ha, hk, bind, Except.bind, pure, Except.pure,
          Except.ok.injEq, Bool.not_true, Bool.false_eq_true, if_false] at hs'
        subst hs'
        rw [explorer_update_animation_length_animation]
        exact durationsNonneg_list_store_update _ _ _ (fun _ _ => hspin) h
  · intro s' hs'
    cases ha : s.allow_transition_changes
    · simp only [on_anim_curve_changed, ha, Bool.not_false, if_true, Except.ok.injEq] at hs'
      subst hs'
      exact h
    · cases hk : explorer_get_current_keyframe s with
      | error e => simp [on_anim_curve_changed, ha, hk, bind, Except.bind] at hs'
      | ok k =>
        simp only [on_anim_curve_changed, ha, hk, bind, Except.bind, pure, Except.pure,
          Except.ok.injEq, Bool.not_true, Bool.false_eq_true, if_false] at hs'
        subst hs'
        exact durationsNonneg_list_store_update _ _ _ (fun _ hr => hr) h
  · intro s' hs'
    cases hc : s.keyframe_view with
    | none =>
      simp [on_keyframe_view_cursor_changed, explorer_get_current_keyframe, hc, bind,
        Except.bind] at hs'
    | some k =>
      by_cases hk : k < s.animation.length
      · obtain ⟨base, hb, hanim, _⟩ := on_keyframe_view_cursor_changed_ok now (n + 2) s k hc hk
        rw [hb] at hs'
        injection hs' with hs'
        subst hs'
        rw [(transition_loaded_frame _ _).1, hanim]
        exact h
      · simp [on_keyframe_view_cursor_changed, explorer_get_current_keyframe, hc, hk, bind,
          Except.bind] at hs'
  · intro s' hs'
    rw [on_anim_scale_changed_eq now (n + 1) s] at hs'
    injection hs' with hs'
    subst hs'
    rw [seek_result_animation]
    exact h
  · intro s' hs'
    rw [explorer_update_animation_eq now n s] at hs'
    injection hs' with hs'
    subst hs'
    dsimp only [tick_result]
    split_ifs
    · rw [range_result_animation]
      exact h
    · rw [range_result_animation]
      exact h
    · rw [play_switched_off_animation, range_result_animation]
      exact h
    · exact h
  · intro s' hs'
    rw [on_anim_play_toggled_eq now n s] at hs'
    injection hs' with hs'
    subst hs'
    dsimp only [play_toggled_result]
    split_ifs
    · rw [range_result_animation]
      exact h
    · exact h
    · exact h
  · intro row hrow
    simp [on_anim_new, explorer_update_animation_length_animation, animation_clear] at hrow
  · cases response_ok
    · exact h
    · simp only [on_anim_open, if_true, explorer_update_animation_length_animation,
        animation_load_file]
      cases file with
      | none => exact h
      | some loaded => exact hfile loaded rfl

end Fyre
